import Mathlib

/-!
Verification of the Docsvault API client binding (`docsvaultapi.py`).

The module is a set of wrapper functions, one per remote endpoint.  Each
wrapper builds a URL from a caller-supplied base URL and a fixed action
path, issues an HTTP request, parses the XML response body (via the
external `xmltodict` library) into a nested key/value tree, checks a
status code inside the envelope, and projects the result payload into a
flat snake_case record.

Shallow embedding used here:

* `PyVal` models the tree values produced by `xmltodict.parse`:
  strings, dictionaries (association lists with string keys), lists,
  Python booleans (produced by the client's own `== "true"` coercions)
  and `None`.
* `PyErr` models the exceptions the module can raise: `ValueError`
  (application errors), `requests.exceptions.RequestException`
  (transport errors), and the unhandled `KeyError` / `TypeError` /
  `AttributeError` that Python raises on bad subscripting, iteration or
  attribute access.
* The HTTP transport and the XML parser are external collaborators, so
  they are modelled as an explicit function `http : HttpRequest →
  HttpResponse` passed to every operation; `HttpResponse.body` is the
  already-parsed tree (the value `xmltodict.parse(response.content)`
  would produce).
* Each Python function `f` is split into `f_request` (the URL / verb /
  query-parameter construction), `f_success` (the code run when the
  envelope status check passes), `f_handle` (the status check and the
  application-error branch) and `f` itself (the HTTP status check and
  the transport-error branch); the pieces correspond to contiguous
  blocks of the source function.
-/

/-- A value in the tree produced by `xmltodict.parse`, or built by the
client itself (Python bools appear only through the client's `== "true"`
coercion). Dictionaries are association lists with string keys. -/
inductive PyVal where
  | str : String → PyVal
  | bool : Bool → PyVal
  | dict : List (String × PyVal) → PyVal
  | list : List PyVal → PyVal
  | none : PyVal

/-- The exceptions the module can raise. -/
inductive PyErr where
  | valueError : String → PyErr
  | requestException : String → PyErr
  | keyError : String → PyErr
  | typeError : PyErr
  | attributeError : PyErr
deriving DecidableEq

/-- HTTP verb of a request (`requests.get` / `requests.post`). -/
inductive HttpMethod where
  | get : HttpMethod
  | post : HttpMethod
deriving DecidableEq

/-- A request as handed to the `requests` library: verb, full URL and
query parameters. -/
structure HttpRequest where
  method : HttpMethod
  url : String
  params : List (String × String)

/-- A transport-level response: numeric status code and the parsed body
(the tree `xmltodict.parse(response.content)` yields). -/
structure HttpResponse where
  status_code : Nat
  body : PyVal

/-- Python's `s.rstrip("/")`: drop all trailing `'/'` characters. -/
def rstrip (s : String) : String :=
  String.mk ((s.data.reverse.dropWhile (fun c => c == '/')).reverse)

/-- Python subscripting `v[k]`: dictionary lookup; `KeyError` on a
missing key, `TypeError` when `v` is not a dictionary. -/
def getItem : PyVal → String → Except PyErr PyVal
  | PyVal.dict kvs, k =>
      match kvs.find? (fun kv => kv.1 == k) with
      | some kv => Except.ok kv.2
      | Option.none => Except.error (PyErr.keyError k)
  | _, _ => Except.error PyErr.typeError

/-- Iterated subscripting `v[k1][k2]…`. -/
def getItemPath : PyVal → List String → Except PyErr PyVal
  | v, [] => Except.ok v
  | v, k :: ks => getItem v k >>= fun w => getItemPath w ks

/-- Python's `v.get(k, d)`: lookup with default; `AttributeError` when
`v` is not a dictionary. -/
def pyGetD : PyVal → String → PyVal → Except PyErr PyVal
  | PyVal.dict kvs, k, d =>
      match kvs.find? (fun kv => kv.1 == k) with
      | some kv => Except.ok kv.2
      | Option.none => Except.ok d
  | _, _, _ => Except.error PyErr.attributeError

/-- Python's `v.get(k)` (default `None`). -/
def pyGet (v : PyVal) (k : String) : Except PyErr PyVal :=
  pyGetD v k PyVal.none

/-- Python's `v == t` for a string literal `t`: true only when `v` is
the same string; any non-string compares unequal. -/
def pyEqStr : PyVal → String → Bool
  | PyVal.str s, t => s == t
  | _, _ => false

/-- Python's `v is None`. -/
def isNone : PyVal → Bool
  | PyVal.none => true
  | _ => false

/-- Python's `isinstance(v, dict)`. -/
def isDict : PyVal → Bool
  | PyVal.dict _ => true
  | _ => false

/-- Python iteration `for x in v`: a list yields its elements, a
dictionary yields its keys (as strings), a string yields its characters
as one-character strings; anything else raises `TypeError`. -/
def pyIter : PyVal → Except PyErr (List PyVal)
  | PyVal.list xs => Except.ok xs
  | PyVal.dict kvs => Except.ok (kvs.map (fun kv => PyVal.str kv.1))
  | PyVal.str s => Except.ok (s.data.map (fun c => PyVal.str (String.mk [c])))
  | _ => Except.error PyErr.typeError

/-- Python string concatenation `s + v`: `TypeError` unless `v` is a
string. -/
def pyAddStr : String → PyVal → Except PyErr String
  | s, PyVal.str t => Except.ok (s ++ t)
  | _, _ => Except.error PyErr.typeError

/-! ## `docsvault_login` (source lines 4–60) -/

/-- Request built by `docsvault_login`.  Note the source (line 40) calls
`requests.get(full_api_url + action, params=params)` although
`full_api_url` already ends with the action, so the action appears twice
in the URL actually requested. -/
def docsvault_login_request (username password api_url : String) : HttpRequest :=
  let action := "Login"
  let params := [("UserName", username), ("Password", password)]
  let full_api_url := rstrip api_url ++ "/DocsvaultAPI/" ++ action
  ⟨HttpMethod.get, full_api_url ++ action, params⟩

/-- Success branch of `docsvault_login` (lines 53–58): read
`Result.TokenID`, reject `None` or `""`. -/
def docsvault_login_success (response_dict : PyVal) : Except PyErr PyVal := do
  let token_id ← getItemPath response_dict ["Docsvault", "Result", "TokenID"]
  if isNone token_id || pyEqStr token_id "" then
    Except.error (PyErr.valueError "Login failed. Token ID not found in API response.")
  else
    pure token_id

/-- Envelope handling of `docsvault_login` (lines 48–58): failure when
`Response.StatusCode == "1"`, otherwise the success branch. -/
def docsvault_login_handle (response_dict : PyVal) : Except PyErr PyVal := do
  let sc ← getItemPath response_dict ["Docsvault", "Response", "StatusCode"]
  if pyEqStr sc "1" then do
    let msg ← getItemPath response_dict ["Docsvault", "Response", "Message"]
    let em ← pyAddStr "Login failed. " msg
    Except.error (PyErr.valueError em)
  else
    docsvault_login_success response_dict

/-- `docsvault_login` (lines 4–60). -/
def docsvault_login (username password api_url : String)
    (http : HttpRequest → HttpResponse) : Except PyErr PyVal :=
  let response := http (docsvault_login_request username password api_url)
  if response.status_code == 200 then
    docsvault_login_handle response.body
  else
    Except.error (PyErr.requestException
      ("Login request failed with status code: " ++ toString response.status_code))

/-! ## `docsvault_login_post` (lines 62–119) -/

/-- Request built by `docsvault_login_post` (POST, URL built correctly). -/
def docsvault_login_post_request (username password api_url : String) : HttpRequest :=
  let action := "LoginPost"
  let params := [("UserName", username), ("Password", password)]
  let full_api_url := rstrip api_url ++ "/DocsvaultAPI/" ++ action
  ⟨HttpMethod.post, full_api_url, params⟩

/-- Success branch of `docsvault_login_post` (lines 112–117): the token
is the top-level `Result` value itself. -/
def docsvault_login_post_success (response_dict : PyVal) : Except PyErr PyVal := do
  let token_id ← getItemPath response_dict ["Docsvault", "Result"]
  if isNone token_id || pyEqStr token_id "" then
    Except.error (PyErr.valueError "Login failed. Token ID not found in API response.")
  else
    pure token_id

/-- Envelope handling of `docsvault_login_post` (lines 107–117). -/
def docsvault_login_post_handle (response_dict : PyVal) : Except PyErr PyVal := do
  let sc ← getItemPath response_dict ["Docsvault", "Response", "StatusCode"]
  if pyEqStr sc "1" then do
    let msg ← getItemPath response_dict ["Docsvault", "Response", "Message"]
    let em ← pyAddStr "Login failed. " msg
    Except.error (PyErr.valueError em)
  else
    docsvault_login_post_success response_dict

/-- `docsvault_login_post` (lines 62–119). -/
def docsvault_login_post (username password api_url : String)
    (http : HttpRequest → HttpResponse) : Except PyErr PyVal :=
  let response := http (docsvault_login_post_request username password api_url)
  if response.status_code == 200 then
    docsvault_login_post_handle response.body
  else
    Except.error (PyErr.requestException
      ("Login request failed with status code: " ++ toString response.status_code))

/-! ## `docsvault_logout` (lines 121–165) -/

/-- Request built by `docsvault_logout`. -/
def docsvault_logout_request (token_id username api_url : String) : HttpRequest :=
  let action := "Logout"
  let params := [("TokenID", token_id), ("UserName", username)]
  let full_api_url := rstrip api_url ++ "/DocsvaultAPI/" ++ action
  ⟨HttpMethod.get, full_api_url, params⟩

/-- Envelope handling of `docsvault_logout` (lines 160–163): failure on
`StatusCode == "1"`, otherwise fall through and return `None`. -/
def docsvault_logout_handle (response_dict : PyVal) : Except PyErr PyVal := do
  let sc ← getItemPath response_dict ["Docsvault", "Response", "StatusCode"]
  if pyEqStr sc "1" then do
    let msg ← getItemPath response_dict ["Docsvault", "Response", "Message"]
    let em ← pyAddStr "Logout failed. " msg
    Except.error (PyErr.valueError em)
  else
    pure PyVal.none

/-- `docsvault_logout` (lines 121–165). -/
def docsvault_logout (token_id username api_url : String)
    (http : HttpRequest → HttpResponse) : Except PyErr PyVal :=
  let response := http (docsvault_logout_request token_id username api_url)
  if response.status_code == 200 then
    docsvault_logout_handle response.body
  else
    Except.error (PyErr.requestException
      ("Logout request failed with status code: " ++ toString response.status_code))

/-! ## `docsvault_get_login_user_id` (lines 167–213) -/

/-- Request built by `docsvault_get_login_user_id`. -/
def docsvault_get_login_user_id_request (token_id api_url : String) : HttpRequest :=
  let action := "GetLoginUserID"
  let params := [("TokenID", token_id)]
  let full_api_url := rstrip api_url ++ "/DocsvaultAPI/" ++ action
  ⟨HttpMethod.get, full_api_url, params⟩

/-- Success branch of `docsvault_get_login_user_id` (lines 206–211). -/
def docsvault_get_login_user_id_success (response_dict : PyVal) : Except PyErr PyVal := do
  let user_id ← getItemPath response_dict ["Docsvault", "Result", "UserID"]
  if isNone user_id || pyEqStr user_id "" then
    Except.error (PyErr.valueError "GetLoginUserID failed. User ID not found in API response.")
  else
    pure user_id

/-- Envelope handling of `docsvault_get_login_user_id` (lines 201–211).
Note: like the login/logout family, this operation checks
`StatusCode == "1"` for failure (line 202), not `== "0"` for success. -/
def docsvault_get_login_user_id_handle (response_dict : PyVal) : Except PyErr PyVal := do
  let sc ← getItemPath response_dict ["Docsvault", "Response", "StatusCode"]
  if pyEqStr sc "1" then do
    let msg ← getItemPath response_dict ["Docsvault", "Response", "Message"]
    let em ← pyAddStr "GetLoginUserID failed. " msg
    Except.error (PyErr.valueError em)
  else
    docsvault_get_login_user_id_success response_dict

/-- `docsvault_get_login_user_id` (lines 167–213). -/
def docsvault_get_login_user_id (token_id api_url : String)
    (http : HttpRequest → HttpResponse) : Except PyErr PyVal :=
  let response := http (docsvault_get_login_user_id_request token_id api_url)
  if response.status_code == 200 then
    docsvault_get_login_user_id_handle response.body
  else
    Except.error (PyErr.requestException
      ("GetLoginUserID request failed with status code: " ++ toString response.status_code))

/-! ## User-detail operations (lines 215–502) -/

/-- The user-detail projection shared verbatim by
`docsvault_get_user_details_by_name` / `_by_id` / `_by_email` /
`docsvault_get_readonly_users` / `docsvault_get_webaccess_users`
(lines 257–266, 315–324, 373–382, 431–440, 488–497 are identical). -/
def projectUserDetail (user_detail : PyVal) : Except PyErr PyVal := do
  let uid ← getItem user_detail "UserID"
  let unm ← getItem user_detail "UserName"
  let ufn ← getItem user_detail "UserFullName"
  let uds ← getItem user_detail "UserDescription"
  let uem ← getItem user_detail "UserEmail"
  let dva ← getItem user_detail "DVAuthentication"
  let wba ← getItem user_detail "WebAccess"
  let lic ← getItem user_detail "LicenseType"
  pure (PyVal.dict
    [("user_id", uid), ("user_name", unm), ("full_name", ufn),
     ("description", uds), ("email", uem), ("dv_authentication", dva),
     ("web_access", wba), ("license_type", lic)])

/-- Request built by `docsvault_get_user_details_by_name`. -/
def docsvault_get_user_details_by_name_request (token_id user_name api_url : String) : HttpRequest :=
  let action := "UserDetails/GetUserDetailsByName"
  let params := [("TokenID", token_id), ("UserName", user_name)]
  let full_api_url := rstrip api_url ++ "/DocsvaultAPI/" ++ action
  ⟨HttpMethod.get, full_api_url, params⟩

/-- Success branch of `docsvault_get_user_details_by_name` (lines 253–266). -/
def docsvault_get_user_details_by_name_success (response_dict : PyVal) : Except PyErr PyVal := do
  let user_detail ← getItemPath response_dict ["Docsvault", "Result", "UserDetail"]
  projectUserDetail user_detail

/-- Envelope handling of `docsvault_get_user_details_by_name`
(lines 251–269): success only when `StatusCode == "0"`. -/
def docsvault_get_user_details_by_name_handle (response_dict : PyVal) : Except PyErr PyVal := do
  let sc ← getItemPath response_dict ["Docsvault", "Response", "StatusCode"]
  if pyEqStr sc "0" then
    docsvault_get_user_details_by_name_success response_dict
  else do
    let msg ← getItemPath response_dict ["Docsvault", "Response", "Message"]
    let em ← pyAddStr "Could not get user details. " msg
    Except.error (PyErr.valueError em)

/-- `docsvault_get_user_details_by_name` (lines 215–271). -/
def docsvault_get_user_details_by_name (token_id user_name api_url : String)
    (http : HttpRequest → HttpResponse) : Except PyErr PyVal :=
  let response := http (docsvault_get_user_details_by_name_request token_id user_name api_url)
  if response.status_code == 200 then
    docsvault_get_user_details_by_name_handle response.body
  else
    Except.error (PyErr.requestException
      ("Could not get user details. Status code: " ++ toString response.status_code))

/-- Request built by `docsvault_get_user_details_by_id`. -/
def docsvault_get_user_details_by_id_request (token_id user_id api_url : String) : HttpRequest :=
  let action := "UserDetails/GetUserDetailsByID"
  let params := [("TokenID", token_id), ("UserID", user_id)]
  let full_api_url := rstrip api_url ++ "/DocsvaultAPI/" ++ action
  ⟨HttpMethod.get, full_api_url, params⟩

/-- Success branch of `docsvault_get_user_details_by_id` (lines 311–324). -/
def docsvault_get_user_details_by_id_success (response_dict : PyVal) : Except PyErr PyVal := do
  let user_detail ← getItemPath response_dict ["Docsvault", "Result", "UserDetail"]
  projectUserDetail user_detail

/-- Envelope handling of `docsvault_get_user_details_by_id` (lines 309–327). -/
def docsvault_get_user_details_by_id_handle (response_dict : PyVal) : Except PyErr PyVal := do
  let sc ← getItemPath response_dict ["Docsvault", "Response", "StatusCode"]
  if pyEqStr sc "0" then
    docsvault_get_user_details_by_id_success response_dict
  else do
    let msg ← getItemPath response_dict ["Docsvault", "Response", "Message"]
    let em ← pyAddStr "Could not get user details. " msg
    Except.error (PyErr.valueError em)

/-- `docsvault_get_user_details_by_id` (lines 273–329). -/
def docsvault_get_user_details_by_id (token_id user_id api_url : String)
    (http : HttpRequest → HttpResponse) : Except PyErr PyVal :=
  let response := http (docsvault_get_user_details_by_id_request token_id user_id api_url)
  if response.status_code == 200 then
    docsvault_get_user_details_by_id_handle response.body
  else
    Except.error (PyErr.requestException
      ("Could not get user details. Status code: " ++ toString response.status_code))

/-- Request built by `docsvault_get_user_details_by_email`. -/
def docsvault_get_user_details_by_email_request (token_id email api_url : String) : HttpRequest :=
  let action := "UserDetails/GetUserDetailsByEmailID"
  let params := [("TokenID", token_id), ("EmailID", email)]
  let full_api_url := rstrip api_url ++ "/DocsvaultAPI/" ++ action
  ⟨HttpMethod.get, full_api_url, params⟩

/-- Success branch of `docsvault_get_user_details_by_email` (lines 369–382). -/
def docsvault_get_user_details_by_email_success (response_dict : PyVal) : Except PyErr PyVal := do
  let user_detail ← getItemPath response_dict ["Docsvault", "Result", "UserDetail"]
  projectUserDetail user_detail

/-- Envelope handling of `docsvault_get_user_details_by_email` (lines 367–385). -/
def docsvault_get_user_details_by_email_handle (response_dict : PyVal) : Except PyErr PyVal := do
  let sc ← getItemPath response_dict ["Docsvault", "Response", "StatusCode"]
  if pyEqStr sc "0" then
    docsvault_get_user_details_by_email_success response_dict
  else do
    let msg ← getItemPath response_dict ["Docsvault", "Response", "Message"]
    let em ← pyAddStr "Could not get user details. " msg
    Except.error (PyErr.valueError em)

/-- `docsvault_get_user_details_by_email` (lines 331–387). -/
def docsvault_get_user_details_by_email (token_id email api_url : String)
    (http : HttpRequest → HttpResponse) : Except PyErr PyVal :=
  let response := http (docsvault_get_user_details_by_email_request token_id email api_url)
  if response.status_code == 200 then
    docsvault_get_user_details_by_email_handle response.body
  else
    Except.error (PyErr.requestException
      ("Could not get user details. Status code: " ++ toString response.status_code))

/-- Request built by `docsvault_get_readonly_users`. -/
def docsvault_get_readonly_users_request (token_id api_url : String) : HttpRequest :=
  let action := "UserDetails/GetReadonlyUsers"
  let params := [("TokenID", token_id)]
  let full_api_url := rstrip api_url ++ "/DocsvaultAPI/" ++ action
  ⟨HttpMethod.get, full_api_url, params⟩

/-- Success branch of `docsvault_get_readonly_users` (lines 423–440):
a lone `UserDetail` dict is wrapped into a singleton list, then the
projection is applied element-wise. -/
def docsvault_get_readonly_users_success (response_dict : PyVal) : Except PyErr PyVal := do
  let user_details ← getItemPath response_dict ["Docsvault", "Result", "UserDetail"]
  let user_details := if isDict user_details then PyVal.list [user_details] else user_details
  let items ← pyIter user_details
  let outs ← items.mapM projectUserDetail
  pure (PyVal.list outs)

/-- Envelope handling of `docsvault_get_readonly_users` (lines 421–443). -/
def docsvault_get_readonly_users_handle (response_dict : PyVal) : Except PyErr PyVal := do
  let sc ← getItemPath response_dict ["Docsvault", "Response", "StatusCode"]
  if pyEqStr sc "0" then
    docsvault_get_readonly_users_success response_dict
  else do
    let msg ← getItemPath response_dict ["Docsvault", "Response", "Message"]
    let em ← pyAddStr "Could not get readonly users. " msg
    Except.error (PyErr.valueError em)

/-- `docsvault_get_readonly_users` (lines 389–445). -/
def docsvault_get_readonly_users (token_id api_url : String)
    (http : HttpRequest → HttpResponse) : Except PyErr PyVal :=
  let response := http (docsvault_get_readonly_users_request token_id api_url)
  if response.status_code == 200 then
    docsvault_get_readonly_users_handle response.body
  else
    Except.error (PyErr.requestException
      ("Could not get readonly users. Status code: " ++ toString response.status_code))

/-- Request built by `docsvault_get_webaccess_users`. -/
def docsvault_get_webaccess_users_request (token_id api_url : String) : HttpRequest :=
  let action := "UserDetails/GetWebAccessUsers"
  let params := [("TokenID", token_id)]
  let full_api_url := rstrip api_url ++ "/DocsvaultAPI/" ++ action
  ⟨HttpMethod.get, full_api_url, params⟩

/-- Success branch of `docsvault_get_webaccess_users` (lines 480–497). -/
def docsvault_get_webaccess_users_success (response_dict : PyVal) : Except PyErr PyVal := do
  let user_details ← getItemPath response_dict ["Docsvault", "Result", "UserDetail"]
  let user_details := if isDict user_details then PyVal.list [user_details] else user_details
  let items ← pyIter user_details
  let outs ← items.mapM projectUserDetail
  pure (PyVal.list outs)

/-- Envelope handling of `docsvault_get_webaccess_users` (lines 478–500). -/
def docsvault_get_webaccess_users_handle (response_dict : PyVal) : Except PyErr PyVal := do
  let sc ← getItemPath response_dict ["Docsvault", "Response", "StatusCode"]
  if pyEqStr sc "0" then
    docsvault_get_webaccess_users_success response_dict
  else do
    let msg ← getItemPath response_dict ["Docsvault", "Response", "Message"]
    let em ← pyAddStr "Could not get Web Access users. " msg
    Except.error (PyErr.valueError em)

/-- `docsvault_get_webaccess_users` (lines 447–502). -/
def docsvault_get_webaccess_users (token_id api_url : String)
    (http : HttpRequest → HttpResponse) : Except PyErr PyVal :=
  let response := http (docsvault_get_webaccess_users_request token_id api_url)
  if response.status_code == 200 then
    docsvault_get_webaccess_users_handle response.body
  else
    Except.error (PyErr.requestException
      ("Could not get Web Access users. Status code: " ++ toString response.status_code))

/-! ## `docsvault_get_user_groups`: two module-level definitions
(lines 504–556 and lines 617–669).  In Python the second `def` of the
same name rebinds it, so the module-level name refers to the second
definition (signature `token_id, api_url, user_id`); the first
(signature `token_id, user_id, api_url`) is shadowed.  Both bodies are
identical. -/

/-- The group projection shared by both `docsvault_get_user_groups`
definitions (lines 547–551 and 660–664 are identical). -/
def projectGroup (group_detail : PyVal) : Except PyErr PyVal := do
  let gnm ← getItem group_detail "GroupName"
  let gid ← getItem group_detail "GroupID"
  let gds ← getItem group_detail "Description"
  pure (PyVal.dict [("group_name", gnm), ("group_id", gid), ("description", gds)])

/-- Request built by the first (shadowed) `docsvault_get_user_groups`. -/
def docsvault_get_user_groups_v1_request (token_id user_id api_url : String) : HttpRequest :=
  let action := "UserDetails/GetUserGroup"
  let params := [("TokenID", token_id), ("UserID", user_id)]
  let full_api_url := rstrip api_url ++ "/DocsvaultAPI/" ++ action
  ⟨HttpMethod.get, full_api_url, params⟩

/-- Success branch of the first `docsvault_get_user_groups` (lines 539–551). -/
def docsvault_get_user_groups_v1_success (response_dict : PyVal) : Except PyErr PyVal := do
  let group_details ← getItemPath response_dict ["Docsvault", "Result", "Group"]
  let group_details := if isDict group_details then PyVal.list [group_details] else group_details
  let items ← pyIter group_details
  let outs ← items.mapM projectGroup
  pure (PyVal.list outs)

/-- Envelope handling of the first `docsvault_get_user_groups`
(lines 537–554). -/
def docsvault_get_user_groups_v1_handle (response_dict : PyVal) : Except PyErr PyVal := do
  let sc ← getItemPath response_dict ["Docsvault", "Response", "StatusCode"]
  if pyEqStr sc "0" then
    docsvault_get_user_groups_v1_success response_dict
  else do
    let msg ← getItemPath response_dict ["Docsvault", "Response", "Message"]
    let em ← pyAddStr "Could not get user groups. " msg
    Except.error (PyErr.valueError em)

/-- The first, shadowed `docsvault_get_user_groups`
(lines 504–556; parameter order `token_id, user_id, api_url`). -/
def docsvault_get_user_groups_v1 (token_id user_id api_url : String)
    (http : HttpRequest → HttpResponse) : Except PyErr PyVal :=
  let response := http (docsvault_get_user_groups_v1_request token_id user_id api_url)
  if response.status_code == 200 then
    docsvault_get_user_groups_v1_handle response.body
  else
    Except.error (PyErr.requestException
      ("Could not get user groups. Status code: " ++ toString response.status_code))

/-- Request built by the second `docsvault_get_user_groups`. -/
def docsvault_get_user_groups_request (token_id api_url user_id : String) : HttpRequest :=
  let action := "UserDetails/GetUserGroup"
  let params := [("TokenID", token_id), ("UserID", user_id)]
  let full_api_url := rstrip api_url ++ "/DocsvaultAPI/" ++ action
  ⟨HttpMethod.get, full_api_url, params⟩

/-- Success branch of the second `docsvault_get_user_groups`
(lines 652–664). -/
def docsvault_get_user_groups_success (response_dict : PyVal) : Except PyErr PyVal := do
  let group_details ← getItemPath response_dict ["Docsvault", "Result", "Group"]
  let group_details := if isDict group_details then PyVal.list [group_details] else group_details
  let items ← pyIter group_details
  let outs ← items.mapM projectGroup
  pure (PyVal.list outs)

/-- Envelope handling of the second `docsvault_get_user_groups`
(lines 650–667). -/
def docsvault_get_user_groups_handle (response_dict : PyVal) : Except PyErr PyVal := do
  let sc ← getItemPath response_dict ["Docsvault", "Response", "StatusCode"]
  if pyEqStr sc "0" then
    docsvault_get_user_groups_success response_dict
  else do
    let msg ← getItemPath response_dict ["Docsvault", "Response", "Message"]
    let em ← pyAddStr "Could not get user groups. " msg
    Except.error (PyErr.valueError em)

/-- The second, effective `docsvault_get_user_groups`
(lines 617–669; parameter order `token_id, api_url, user_id`). -/
def docsvault_get_user_groups (token_id api_url user_id : String)
    (http : HttpRequest → HttpResponse) : Except PyErr PyVal :=
  let response := http (docsvault_get_user_groups_request token_id api_url user_id)
  if response.status_code == 200 then
    docsvault_get_user_groups_handle response.body
  else
    Except.error (PyErr.requestException
      ("Could not get user groups. Status code: " ++ toString response.status_code))

/-- The connected-user projection of `docsvault_get_connected_users`
(lines 600–610): like `projectUserDetail` plus `login_from`. -/
def projectConnectedUserDetail (user_detail : PyVal) : Except PyErr PyVal := do
  let uid ← getItem user_detail "UserID"
  let unm ← getItem user_detail "UserName"
  let ufn ← getItem user_detail "UserFullName"
  let uds ← getItem user_detail "UserDescription"
  let uem ← getItem user_detail "UserEmail"
  let dva ← getItem user_detail "DVAuthentication"
  let wba ← getItem user_detail "WebAccess"
  let lgf ← getItem user_detail "LoginFrom"
  let lic ← getItem user_detail "LicenseType"
  pure (PyVal.dict
    [("user_id", uid), ("user_name", unm), ("full_name", ufn),
     ("description", uds), ("email", uem), ("dv_authentication", dva),
     ("web_access", wba), ("login_from", lgf), ("license_type", lic)])

/-- Request built by `docsvault_get_connected_users`. -/
def docsvault_get_connected_users_request (token_id api_url : String) : HttpRequest :=
  let action := "UserDetails/GetConnectedUsers"
  let params := [("TokenID", token_id)]
  let full_api_url := rstrip api_url ++ "/DocsvaultAPI/" ++ action
  ⟨HttpMethod.get, full_api_url, params⟩

/-- Success branch of `docsvault_get_connected_users` (lines 592–610). -/
def docsvault_get_connected_users_success (response_dict : PyVal) : Except PyErr PyVal := do
  let user_details ← getItemPath response_dict ["Docsvault", "Result", "UserDetail"]
  let user_details := if isDict user_details then PyVal.list [user_details] else user_details
  let items ← pyIter user_details
  let outs ← items.mapM projectConnectedUserDetail
  pure (PyVal.list outs)

/-- Envelope handling of `docsvault_get_connected_users` (lines 590–613). -/
def docsvault_get_connected_users_handle (response_dict : PyVal) : Except PyErr PyVal := do
  let sc ← getItemPath response_dict ["Docsvault", "Response", "StatusCode"]
  if pyEqStr sc "0" then
    docsvault_get_connected_users_success response_dict
  else do
    let msg ← getItemPath response_dict ["Docsvault", "Response", "Message"]
    let em ← pyAddStr "Could not get connected users. " msg
    Except.error (PyErr.valueError em)

/-- `docsvault_get_connected_users` (lines 558–615). -/
def docsvault_get_connected_users (token_id api_url : String)
    (http : HttpRequest → HttpResponse) : Except PyErr PyVal :=
  let response := http (docsvault_get_connected_users_request token_id api_url)
  if response.status_code == 200 then
    docsvault_get_connected_users_handle response.body
  else
    Except.error (PyErr.requestException
      ("Could not get connected users. Status code: " ++ toString response.status_code))

/-! ## File-detail operations (lines 671–1068) -/

/-- Request built by `docsvault_get_file_details`. -/
def docsvault_get_file_details_request (token_id api_url file_id : String) : HttpRequest :=
  let action := "FileDetails/GetFileDetailsByID"
  let params := [("TokenID", token_id), ("FileID", file_id)]
  let full_api_url := rstrip api_url ++ "/DocsvaultAPI/" ++ action
  ⟨HttpMethod.get, full_api_url, params⟩

/-- Success branch of `docsvault_get_file_details` (lines 706–739).
The dict-literal entries are evaluated in source order; `checked_out`
is `file_details.get("CheckedOut") == "true"` (a Python bool) and
`indexes` iterates `file_details["ListOfIndexes"]["Indexes"]` with no
singleton-to-list normalization. -/
def docsvault_get_file_details_success (response_dict : PyVal) : Except PyErr PyVal := do
  let file_details ← getItemPath response_dict ["Docsvault", "Result", "FileDetail"]
  let fid ← getItem file_details "FileID"
  let pid ← getItem file_details "ParentID"
  let fnm ← getItem file_details "FileName"
  let dsc ← getItem file_details "Description"
  let flg ← getItem file_details "FlagName"
  let fsz ← getItem file_details "FileSize"
  let dty ← getItem file_details "DocType"
  let pgs ← getItem file_details "Pages"
  let ver ← getItem file_details "Version"
  let vnt ← getItem file_details "VersionNote"
  let vow ← getItem file_details "VersionOwner"
  let vwn ← getItem file_details "VersionOwnerName"
  let mdd ← getItem file_details "ModifiedDate"
  let crd ← getItem file_details "CreatedDate"
  let acd ← getItem file_details "AccessedDate"
  let cko ← pyGet file_details "CheckedOut"
  let ckb ← pyGet file_details "CheckedOutBy"
  let ckn ← pyGet file_details "CheckedOutByName"
  let oid ← getItem file_details "OwnerID"
  let own ← getItem file_details "OwnerName"
  let loc ← getItem file_details "Location"
  let dnt ← getItem file_details "DocNotes"
  let prf ← getItem file_details "ProfileID"
  let prn ← getItem file_details "ProfileName"
  let ixsv ← getItemPath file_details ["ListOfIndexes", "Indexes"]
  let items ← pyIter ixsv
  let ixs ← items.mapM (fun index => do
    let i ← getItem index "Index"
    let v ← getItem index "IndexValue"
    pure (PyVal.dict [("index", i), ("index_value", v)]))
  pure (PyVal.dict
    [("file_id", fid), ("parent_id", pid), ("file_name", fnm),
     ("description", dsc), ("flag_name", flg), ("file_size", fsz),
     ("doc_type", dty), ("pages", pgs), ("version", ver),
     ("version_note", vnt), ("version_owner", vow), ("version_owner_name", vwn),
     ("modified_date", mdd), ("created_date", crd), ("accessed_date", acd),
     ("checked_out", PyVal.bool (pyEqStr cko "true")),
     ("checked_out_by", ckb), ("checked_out_by_name", ckn),
     ("owner_id", oid), ("owner_name", own), ("location", loc),
     ("doc_notes", dnt), ("profile_id", prf), ("profile_name", prn),
     ("indexes", PyVal.list ixs)])

/-- Envelope handling of `docsvault_get_file_details` (lines 704–742). -/
def docsvault_get_file_details_handle (response_dict : PyVal) : Except PyErr PyVal := do
  let sc ← getItemPath response_dict ["Docsvault", "Response", "StatusCode"]
  if pyEqStr sc "0" then
    docsvault_get_file_details_success response_dict
  else do
    let msg ← getItemPath response_dict ["Docsvault", "Response", "Message"]
    let em ← pyAddStr "Could not get file details. " msg
    Except.error (PyErr.valueError em)

/-- `docsvault_get_file_details` (lines 671–744). -/
def docsvault_get_file_details (token_id api_url file_id : String)
    (http : HttpRequest → HttpResponse) : Except PyErr PyVal :=
  let response := http (docsvault_get_file_details_request token_id api_url file_id)
  if response.status_code == 200 then
    docsvault_get_file_details_handle response.body
  else
    Except.error (PyErr.requestException
      ("Could not get file details. Status code: " ++ toString response.status_code))

/-- Request built by `docsvault_get_file_details_by_location`. -/
def docsvault_get_file_details_by_location_request (token_id api_url location : String) : HttpRequest :=
  let action := "FileDetails/GetFileDetailsByLocation"
  let params := [("TokenID", token_id), ("Location", location)]
  let full_api_url := rstrip api_url ++ "/DocsvaultAPI/" ++ action
  ⟨HttpMethod.get, full_api_url, params⟩

/-- Success branch of `docsvault_get_file_details_by_location`
(lines 781–811).  Here `checked_out` is `file_detail["CheckedOut"]`
copied verbatim (a string, line 801), and `list_of_indexes` is the raw
`file_detail.get("ListOfIndexes", {}).get("Indexes", [])` value. -/
def docsvault_get_file_details_by_location_success (response_dict : PyVal) : Except PyErr PyVal := do
  let file_detail ← getItemPath response_dict ["Docsvault", "Result", "FileDetail"]
  let fid ← getItem file_detail "FileID"
  let pid ← getItem file_detail "ParentID"
  let fnm ← getItem file_detail "FileName"
  let dsc ← getItem file_detail "Description"
  let flg ← getItem file_detail "FlagName"
  let fsz ← getItem file_detail "FileSize"
  let dty ← getItem file_detail "DocType"
  let pgs ← getItem file_detail "Pages"
  let ver ← getItem file_detail "Version"
  let vnt ← getItem file_detail "VersionNote"
  let vow ← getItem file_detail "VersionOwner"
  let vwn ← getItem file_detail "VersionOwnerName"
  let mdd ← getItem file_detail "ModifiedDate"
  let crd ← getItem file_detail "CreatedDate"
  let acd ← getItem file_detail "AccessedDate"
  let cko ← getItem file_detail "CheckedOut"
  let ckb ← getItem file_detail "CheckedOutBy"
  let ckn ← getItem file_detail "CheckedOutByName"
  let oid ← getItem file_detail "OwnerID"
  let own ← getItem file_detail "OwnerName"
  let loc ← getItem file_detail "Location"
  let dnt ← getItem file_detail "DocNotes"
  let prf ← getItem file_detail "ProfileID"
  let prn ← getItem file_detail "ProfileName"
  let loi ← pyGetD file_detail "ListOfIndexes" (PyVal.dict [])
  let ixsv ← pyGetD loi "Indexes" (PyVal.list [])
  pure (PyVal.dict
    [("file_id", fid), ("parent_id", pid), ("file_name", fnm),
     ("description", dsc), ("flag_name", flg), ("file_size", fsz),
     ("doc_type", dty), ("pages", pgs), ("version", ver),
     ("version_note", vnt), ("version_owner", vow), ("version_owner_name", vwn),
     ("modified_date", mdd), ("created_date", crd), ("accessed_date", acd),
     ("checked_out", cko),
     ("checked_out_by", ckb), ("checked_out_by_name", ckn),
     ("owner_id", oid), ("owner_name", own), ("location", loc),
     ("doc_notes", dnt), ("profile_id", prf), ("profile_name", prn),
     ("list_of_indexes", ixsv)])

/-- Envelope handling of `docsvault_get_file_details_by_location`
(lines 779–814). -/
def docsvault_get_file_details_by_location_handle (response_dict : PyVal) : Except PyErr PyVal := do
  let sc ← getItemPath response_dict ["Docsvault", "Response", "StatusCode"]
  if pyEqStr sc "0" then
    docsvault_get_file_details_by_location_success response_dict
  else do
    let msg ← getItemPath response_dict ["Docsvault", "Response", "Message"]
    let em ← pyAddStr "Could not get file details. " msg
    Except.error (PyErr.valueError em)

/-- `docsvault_get_file_details_by_location` (lines 746–816). -/
def docsvault_get_file_details_by_location (token_id api_url location : String)
    (http : HttpRequest → HttpResponse) : Except PyErr PyVal :=
  let response := http (docsvault_get_file_details_by_location_request token_id api_url location)
  if response.status_code == 200 then
    docsvault_get_file_details_by_location_handle response.body
  else
    Except.error (PyErr.requestException
      ("Could not get file details. Status code: " ++ toString response.status_code))

/-- Request built by `docsvault_get_file_profile`. -/
def docsvault_get_file_profile_request (token_id api_url file_id : String) : HttpRequest :=
  let action := "FileDetails/GetFileProfile"
  let params := [("TokenID", token_id), ("FileID", file_id)]
  let full_api_url := rstrip api_url ++ "/DocsvaultAPI/" ++ action
  ⟨HttpMethod.get, full_api_url, params⟩

/-- The dict comprehension `{index["Index"]: index["IndexValue"] for
index in indexes}` of `docsvault_get_file_profile` (line 856); keys in
the model are strings, so a non-string `Index` value is a `TypeError`. -/
def indexValuePairs : List PyVal → Except PyErr (List (String × PyVal))
  | [] => Except.ok []
  | index :: rest => do
      let i ← getItem index "Index"
      let v ← getItem index "IndexValue"
      let tail ← indexValuePairs rest
      match i with
      | PyVal.str s => Except.ok ((s, v) :: tail)
      | _ => Except.error PyErr.typeError

/-- Success branch of `docsvault_get_file_profile` (lines 853–864). -/
def docsvault_get_file_profile_success (response_dict : PyVal) : Except PyErr PyVal := do
  let file_detail ← getItemPath response_dict ["Docsvault", "Result", "FileDetail"]
  let loi ← pyGetD file_detail "ListOfIndexes" (PyVal.dict [])
  let ixsv ← pyGetD loi "Indexes" (PyVal.list [])
  let items ← pyIter ixsv
  let index_values ← indexValuePairs items
  let flg ← getItem file_detail "FlagName"
  let dnt ← getItem file_detail "DocNotes"
  let prn ← getItem file_detail "ProfileName"
  pure (PyVal.dict
    [("flag_name", flg), ("doc_notes", dnt), ("profile_name", prn),
     ("index_values", PyVal.dict index_values)])

/-- Envelope handling of `docsvault_get_file_profile` (lines 851–867). -/
def docsvault_get_file_profile_handle (response_dict : PyVal) : Except PyErr PyVal := do
  let sc ← getItemPath response_dict ["Docsvault", "Response", "StatusCode"]
  if pyEqStr sc "0" then
    docsvault_get_file_profile_success response_dict
  else do
    let msg ← getItemPath response_dict ["Docsvault", "Response", "Message"]
    let em ← pyAddStr "Could not get file profile. " msg
    Except.error (PyErr.valueError em)

/-- `docsvault_get_file_profile` (lines 818–869). -/
def docsvault_get_file_profile (token_id api_url file_id : String)
    (http : HttpRequest → HttpResponse) : Except PyErr PyVal :=
  let response := http (docsvault_get_file_profile_request token_id api_url file_id)
  if response.status_code == 200 then
    docsvault_get_file_profile_handle response.body
  else
    Except.error (PyErr.requestException
      ("Could not get file profile. Status code: " ++ toString response.status_code))

/-- Request built by `docsvault_get_checked_out_files_by_user`. -/
def docsvault_get_checked_out_files_by_user_request (token_id api_url user_id : String) : HttpRequest :=
  let action := "FileDetails/GetCheckedoutFilesByUser"
  let params := [("TokenID", token_id), ("UserID", user_id)]
  let full_api_url := rstrip api_url ++ "/DocsvaultAPI/" ++ action
  ⟨HttpMethod.get, full_api_url, params⟩

/-- The per-file projection of `docsvault_get_checked_out_files_by_user`
(lines 916–938). -/
def projectCheckedOutFile (file_detail : PyVal) : Except PyErr PyVal := do
  let fid ← getItem file_detail "FileID"
  let pid ← getItem file_detail "ParentID"
  let fnm ← getItem file_detail "FileName"
  let dsc ← getItem file_detail "Description"
  let flg ← getItem file_detail "FlagName"
  let fsz ← getItem file_detail "FileSize"
  let dty ← getItem file_detail "DocType"
  let pgs ← getItem file_detail "Pages"
  let ver ← getItem file_detail "Version"
  let vnt ← getItem file_detail "VersionNote"
  let vow ← getItem file_detail "VersionOwner"
  let vwn ← getItem file_detail "VersionOwnerName"
  let mdd ← getItem file_detail "ModifiedDate"
  let crd ← getItem file_detail "CreatedDate"
  let acd ← getItem file_detail "AccessedDate"
  let cko ← pyGet file_detail "CheckedOut"
  let ckb ← pyGetD file_detail "CheckedOutBy" (PyVal.str "")
  let ckn ← pyGetD file_detail "CheckedOutByName" (PyVal.str "")
  let oid ← getItem file_detail "OwnerID"
  let own ← getItem file_detail "OwnerName"
  let loc ← getItem file_detail "Location"
  pure (PyVal.dict
    [("file_id", fid), ("parent_id", pid), ("file_name", fnm),
     ("description", dsc), ("flag_name", flg), ("file_size", fsz),
     ("doc_type", dty), ("pages", pgs), ("version", ver),
     ("version_note", vnt), ("version_owner", vow), ("version_owner_name", vwn),
     ("modified_date", mdd), ("created_date", crd), ("accessed_date", acd),
     ("checked_out", PyVal.bool (pyEqStr cko "true")),
     ("checked_out_by", ckb), ("checked_out_by_name", ckn),
     ("owner_id", oid), ("owner_name", own), ("location", loc)])

/-- Success branch of `docsvault_get_checked_out_files_by_user`
(lines 906–941): `Result.get("FileDetail", [])`, singleton wrap, then
element-wise projection, wrapped under the `checked_out_files` key. -/
def docsvault_get_checked_out_files_by_user_success (response_dict : PyVal) : Except PyErr PyVal := do
  let result ← getItemPath response_dict ["Docsvault", "Result"]
  let file_details ← pyGetD result "FileDetail" (PyVal.list [])
  let file_details := if isDict file_details then PyVal.list [file_details] else file_details
  let items ← pyIter file_details
  let outs ← items.mapM projectCheckedOutFile
  pure (PyVal.dict [("checked_out_files", PyVal.list outs)])

/-- Envelope handling of `docsvault_get_checked_out_files_by_user`
(lines 904–944). -/
def docsvault_get_checked_out_files_by_user_handle (response_dict : PyVal) : Except PyErr PyVal := do
  let sc ← getItemPath response_dict ["Docsvault", "Response", "StatusCode"]
  if pyEqStr sc "0" then
    docsvault_get_checked_out_files_by_user_success response_dict
  else do
    let msg ← getItemPath response_dict ["Docsvault", "Response", "Message"]
    let em ← pyAddStr "Could not get checked out files. " msg
    Except.error (PyErr.valueError em)

/-- `docsvault_get_checked_out_files_by_user` (lines 871–946). -/
def docsvault_get_checked_out_files_by_user (token_id api_url user_id : String)
    (http : HttpRequest → HttpResponse) : Except PyErr PyVal :=
  let response := http (docsvault_get_checked_out_files_by_user_request token_id api_url user_id)
  if response.status_code == 200 then
    docsvault_get_checked_out_files_by_user_handle response.body
  else
    Except.error (PyErr.requestException
      ("Could not get checked out files. Status code: " ++ toString response.status_code))

/-- Request built by `docsvault_get_file_versions`. -/
def docsvault_get_file_versions_request (token_id api_url file_id : String) : HttpRequest :=
  let action := "FileDetails/GetFileVersion"
  let params := [("TokenID", token_id), ("FileID", file_id)]
  let full_api_url := rstrip api_url ++ "/DocsvaultAPI/" ++ action
  ⟨HttpMethod.get, full_api_url, params⟩

/-- The per-version projection of `docsvault_get_file_versions`
(lines 993–1001). -/
def projectFileVersion (file_detail : PyVal) : Except PyErr PyVal := do
  let fsz ← getItem file_detail "FileSize"
  let ver ← getItem file_detail "Version"
  let vnt ← getItem file_detail "VersionNote"
  let vow ← getItem file_detail "VersionOwner"
  let vwn ← getItem file_detail "VersionOwnerName"
  let crd ← getItem file_detail "CreatedDate"
  let vns ← getItem file_detail "VersionNotes"
  pure (PyVal.dict
    [("file_size", fsz), ("version", ver), ("version_note", vnt),
     ("version_owner", vow), ("version_owner_name", vwn),
     ("created_date", crd), ("version_notes", vns)])

/-- Success branch of `docsvault_get_file_versions` (lines 983–1004). -/
def docsvault_get_file_versions_success (response_dict : PyVal) : Except PyErr PyVal := do
  let result ← getItemPath response_dict ["Docsvault", "Result"]
  let file_details ← pyGetD result "FileDetail" (PyVal.list [])
  let file_details := if isDict file_details then PyVal.list [file_details] else file_details
  let items ← pyIter file_details
  let outs ← items.mapM projectFileVersion
  pure (PyVal.dict [("file_versions", PyVal.list outs)])

/-- Envelope handling of `docsvault_get_file_versions` (lines 981–1007). -/
def docsvault_get_file_versions_handle (response_dict : PyVal) : Except PyErr PyVal := do
  let sc ← getItemPath response_dict ["Docsvault", "Response", "StatusCode"]
  if pyEqStr sc "0" then
    docsvault_get_file_versions_success response_dict
  else do
    let msg ← getItemPath response_dict ["Docsvault", "Response", "Message"]
    let em ← pyAddStr "Could not get file versions. " msg
    Except.error (PyErr.valueError em)

/-- `docsvault_get_file_versions` (lines 948–1009). -/
def docsvault_get_file_versions (token_id api_url file_id : String)
    (http : HttpRequest → HttpResponse) : Except PyErr PyVal :=
  let response := http (docsvault_get_file_versions_request token_id api_url file_id)
  if response.status_code == 200 then
    docsvault_get_file_versions_handle response.body
  else
    Except.error (PyErr.requestException
      ("Could not get file versions. Status code: " ++ toString response.status_code))

/-- Request built by `docsvault_get_file_relations`. -/
def docsvault_get_file_relations_request (token_id api_url file_id : String) : HttpRequest :=
  let action := "FileDetails/GetFileRelations"
  let params := [("TokenID", token_id), ("FileID", file_id)]
  let full_api_url := rstrip api_url ++ "/DocsvaultAPI/" ++ action
  ⟨HttpMethod.get, full_api_url, params⟩

/-- The per-document projection of `docsvault_get_file_relations`
(lines 1056–1060). -/
def projectRelatedFile (file_detail : PyVal) : Except PyErr PyVal := do
  let fid ← getItem file_detail "FileID"
  let dsc ← getItem file_detail "Description"
  let loc ← getItem file_detail "Location"
  pure (PyVal.dict [("file_id", fid), ("description", dsc), ("location", loc)])

/-- Success branch of `docsvault_get_file_relations` (lines 1046–1063). -/
def docsvault_get_file_relations_success (response_dict : PyVal) : Except PyErr PyVal := do
  let result ← getItemPath response_dict ["Docsvault", "Result"]
  let file_details ← pyGetD result "FileDetail" (PyVal.list [])
  let file_details := if isDict file_details then PyVal.list [file_details] else file_details
  let items ← pyIter file_details
  let outs ← items.mapM projectRelatedFile
  pure (PyVal.dict [("related_documents", PyVal.list outs)])

/-- Envelope handling of `docsvault_get_file_relations` (lines 1044–1066). -/
def docsvault_get_file_relations_handle (response_dict : PyVal) : Except PyErr PyVal := do
  let sc ← getItemPath response_dict ["Docsvault", "Response", "StatusCode"]
  if pyEqStr sc "0" then
    docsvault_get_file_relations_success response_dict
  else do
    let msg ← getItemPath response_dict ["Docsvault", "Response", "Message"]
    let em ← pyAddStr "Could not get related documents. " msg
    Except.error (PyErr.valueError em)

/-- `docsvault_get_file_relations` (lines 1011–1068). -/
def docsvault_get_file_relations (token_id api_url file_id : String)
    (http : HttpRequest → HttpResponse) : Except PyErr PyVal :=
  let response := http (docsvault_get_file_relations_request token_id api_url file_id)
  if response.status_code == 200 then
    docsvault_get_file_relations_handle response.body
  else
    Except.error (PyErr.requestException
      ("Could not get related documents. Status code: " ++ toString response.status_code))

/-! ## Folder-detail operations (lines 1070–1347) -/

/-- The folder-detail projection shared verbatim by
`docsvault_get_folder_details_by_id` and
`docsvault_get_folder_details_by_location` (lines 1109–1135 and
1181–1207 are identical); every field is read with `.get` (default
`None`), and `list_of_indexes` projects
`folder_detail.get("ListOfIndexes", {}).get("Indexes", [])`
element-wise with `.get` as well. -/
def projectFolderDetail (folder_detail : PyVal) : Except PyErr PyVal := do
  let fld ← pyGet folder_detail "FolderID"
  let pid ← pyGet folder_detail "ParentID"
  let fnm ← pyGet folder_detail "FolderName"
  let dsc ← pyGet folder_detail "Description"
  let flg ← pyGet folder_detail "FlagName"
  let hch ← pyGet folder_detail "HasChild"
  let mdd ← pyGet folder_detail "ModifiedDate"
  let crd ← pyGet folder_detail "CreatedDate"
  let acd ← pyGet folder_detail "AccessedDate"
  let cko ← pyGet folder_detail "CheckedOut"
  let ckb ← pyGet folder_detail "CheckedOutBy"
  let ckn ← pyGet folder_detail "CheckedOutByName"
  let oid ← pyGet folder_detail "OwnerID"
  let own ← pyGet folder_detail "OwnerName"
  let loc ← pyGet folder_detail "Location"
  let dnt ← pyGet folder_detail "DocNotes"
  let prf ← pyGet folder_detail "ProfileID"
  let prn ← pyGet folder_detail "ProfileName"
  let loi ← pyGetD folder_detail "ListOfIndexes" (PyVal.dict [])
  let ixsv ← pyGetD loi "Indexes" (PyVal.list [])
  let items ← pyIter ixsv
  let ixs ← items.mapM (fun index => do
    let i ← pyGet index "Index"
    let v ← pyGet index "IndexValue"
    pure (PyVal.dict [("index", i), ("index_value", v)]))
  pure (PyVal.dict
    [("folder_id", fld), ("parent_id", pid), ("folder_name", fnm),
     ("description", dsc), ("flag_name", flg), ("has_child", hch),
     ("modified_date", mdd), ("created_date", crd), ("accessed_date", acd),
     ("checked_out", cko), ("checked_out_by", ckb), ("checked_out_by_name", ckn),
     ("owner_id", oid), ("owner_name", own), ("location", loc),
     ("doc_notes", dnt), ("profile_id", prf), ("profile_name", prn),
     ("list_of_indexes", PyVal.list ixs)])

/-- Request built by `docsvault_get_folder_details_by_id`. -/
def docsvault_get_folder_details_by_id_request (token_id api_url folder_id : String) : HttpRequest :=
  let action := "FolderDetails/GetFolderDetailsByID"
  let params := [("TokenID", token_id), ("FolderID", folder_id)]
  let full_api_url := rstrip api_url ++ "/DocsvaultAPI/" ++ action
  ⟨HttpMethod.get, full_api_url, params⟩

/-- Success branch of `docsvault_get_folder_details_by_id`
(lines 1105–1135): `Result.get("FolderDetail", {})` then projection. -/
def docsvault_get_folder_details_by_id_success (response_dict : PyVal) : Except PyErr PyVal := do
  let result ← getItemPath response_dict ["Docsvault", "Result"]
  let folder_detail ← pyGetD result "FolderDetail" (PyVal.dict [])
  projectFolderDetail folder_detail

/-- Envelope handling of `docsvault_get_folder_details_by_id`
(lines 1103–1138). -/
def docsvault_get_folder_details_by_id_handle (response_dict : PyVal) : Except PyErr PyVal := do
  let sc ← getItemPath response_dict ["Docsvault", "Response", "StatusCode"]
  if pyEqStr sc "0" then
    docsvault_get_folder_details_by_id_success response_dict
  else do
    let msg ← getItemPath response_dict ["Docsvault", "Response", "Message"]
    let em ← pyAddStr "Could not get folder details. " msg
    Except.error (PyErr.valueError em)

/-- `docsvault_get_folder_details_by_id` (lines 1070–1140). -/
def docsvault_get_folder_details_by_id (token_id api_url folder_id : String)
    (http : HttpRequest → HttpResponse) : Except PyErr PyVal :=
  let response := http (docsvault_get_folder_details_by_id_request token_id api_url folder_id)
  if response.status_code == 200 then
    docsvault_get_folder_details_by_id_handle response.body
  else
    Except.error (PyErr.requestException
      ("Could not get folder details. Status code: " ++ toString response.status_code))

/-- Request built by `docsvault_get_folder_details_by_location`. -/
def docsvault_get_folder_details_by_location_request (token_id api_url location : String) : HttpRequest :=
  let action := "FolderDetails/GetFolderDetailsByLocation"
  let params := [("TokenID", token_id), ("Location", location)]
  let full_api_url := rstrip api_url ++ "/DocsvaultAPI/" ++ action
  ⟨HttpMethod.get, full_api_url, params⟩

/-- Success branch of `docsvault_get_folder_details_by_location`
(lines 1177–1207). -/
def docsvault_get_folder_details_by_location_success (response_dict : PyVal) : Except PyErr PyVal := do
  let result ← getItemPath response_dict ["Docsvault", "Result"]
  let folder_detail ← pyGetD result "FolderDetail" (PyVal.dict [])
  projectFolderDetail folder_detail

/-- Envelope handling of `docsvault_get_folder_details_by_location`
(lines 1175–1210). -/
def docsvault_get_folder_details_by_location_handle (response_dict : PyVal) : Except PyErr PyVal := do
  let sc ← getItemPath response_dict ["Docsvault", "Response", "StatusCode"]
  if pyEqStr sc "0" then
    docsvault_get_folder_details_by_location_success response_dict
  else do
    let msg ← getItemPath response_dict ["Docsvault", "Response", "Message"]
    let em ← pyAddStr "Could not get folder details. " msg
    Except.error (PyErr.valueError em)

/-- `docsvault_get_folder_details_by_location` (lines 1142–1212). -/
def docsvault_get_folder_details_by_location (token_id api_url location : String)
    (http : HttpRequest → HttpResponse) : Except PyErr PyVal :=
  let response := http (docsvault_get_folder_details_by_location_request token_id api_url location)
  if response.status_code == 200 then
    docsvault_get_folder_details_by_location_handle response.body
  else
    Except.error (PyErr.requestException
      ("Could not get folder details. Status code: " ++ toString response.status_code))

/-- Request built by `docsvault_get_folder_profile`. -/
def docsvault_get_folder_profile_request (token_id api_url folder_id : String) : HttpRequest :=
  let action := "FolderDetails/GetFolderProfile"
  let params := [("TokenID", token_id), ("FolderID", folder_id)]
  let full_api_url := rstrip api_url ++ "/DocsvaultAPI/" ++ action
  ⟨HttpMethod.get, full_api_url, params⟩

/-- Success branch of `docsvault_get_folder_profile` (lines 1249–1264). -/
def docsvault_get_folder_profile_success (response_dict : PyVal) : Except PyErr PyVal := do
  let result ← getItemPath response_dict ["Docsvault", "Result"]
  let folder_detail ← pyGetD result "FolderDetail" (PyVal.dict [])
  let flg ← pyGet folder_detail "FlagName"
  let dnt ← pyGet folder_detail "DocNotes"
  let prn ← pyGet folder_detail "ProfileName"
  let loi ← pyGetD folder_detail "ListOfIndexes" (PyVal.dict [])
  let ixsv ← pyGetD loi "Indexes" (PyVal.list [])
  let items ← pyIter ixsv
  let ixs ← items.mapM (fun index => do
    let i ← pyGet index "Index"
    let v ← pyGet index "IndexValue"
    pure (PyVal.dict [("index", i), ("index_value", v)]))
  pure (PyVal.dict
    [("flag_name", flg), ("doc_notes", dnt), ("profile_name", prn),
     ("list_of_indexes", PyVal.list ixs)])

/-- Envelope handling of `docsvault_get_folder_profile` (lines 1247–1267). -/
def docsvault_get_folder_profile_handle (response_dict : PyVal) : Except PyErr PyVal := do
  let sc ← getItemPath response_dict ["Docsvault", "Response", "StatusCode"]
  if pyEqStr sc "0" then
    docsvault_get_folder_profile_success response_dict
  else do
    let msg ← getItemPath response_dict ["Docsvault", "Response", "Message"]
    let em ← pyAddStr "Could not get folder profile. " msg
    Except.error (PyErr.valueError em)

/-- `docsvault_get_folder_profile` (lines 1214–1269). -/
def docsvault_get_folder_profile (token_id api_url folder_id : String)
    (http : HttpRequest → HttpResponse) : Except PyErr PyVal :=
  let response := http (docsvault_get_folder_profile_request token_id api_url folder_id)
  if response.status_code == 200 then
    docsvault_get_folder_profile_handle response.body
  else
    Except.error (PyErr.requestException
      ("Could not get folder profile. Status code: " ++ toString response.status_code))

/-- Request built by `docsvault_get_folder_relations`. -/
def docsvault_get_folder_relations_request (token_id api_url folder_id : String) : HttpRequest :=
  let action := "FolderDetails/GetFolderRelations"
  let params := [("TokenID", token_id), ("FolderID", folder_id)]
  let full_api_url := rstrip api_url ++ "/DocsvaultAPI/" ++ action
  ⟨HttpMethod.get, full_api_url, params⟩

/-- The per-document projection of `docsvault_get_folder_relations`
(lines 1311–1340), every field read with `.get`. -/
def projectDoc (doc : PyVal) : Except PyErr PyVal := do
  let did ← pyGet doc "DocID"
  let dnm ← pyGet doc "DocName"
  let dty ← pyGet doc "DocType"
  let ver ← pyGet doc "Version"
  let fld ← pyGet doc "FolderID"
  let fnm ← pyGet doc "FolderName"
  let loc ← pyGet doc "Location"
  let mdd ← pyGet doc "ModifiedDate"
  let crd ← pyGet doc "CreatedDate"
  let acd ← pyGet doc "AccessedDate"
  let siz ← pyGet doc "Size"
  let ext ← pyGet doc "Extension"
  let chk ← pyGet doc "Checksum"
  let pgs ← pyGet doc "Pages"
  let aut ← pyGet doc "Author"
  let tit ← pyGet doc "Title"
  let sbj ← pyGet doc "Subject"
  let kwd ← pyGet doc "Keywords"
  let cat ← pyGet doc "Category"
  let sta ← pyGet doc "Status"
  let cmt ← pyGet doc "Comment"
  let oid ← pyGet doc "OwnerID"
  let own ← pyGet doc "OwnerName"
  let fpt ← pyGet doc "FilePath"
  let dnt ← pyGet doc "DocNotes"
  let wfs ← pyGet doc "WorkflowStatus"
  let wba ← pyGet doc "WebAccess"
  let tsk ← pyGet doc "TaskID"
  pure (PyVal.dict
    [("doc_id", did), ("doc_name", dnm), ("doc_type", dty), ("version", ver),
     ("folder_id", fld), ("folder_name", fnm), ("location", loc),
     ("modified_date", mdd), ("created_date", crd), ("accessed_date", acd),
     ("size", siz), ("extension", ext), ("checksum", chk), ("pages", pgs),
     ("author", aut), ("title", tit), ("subject", sbj), ("keywords", kwd),
     ("category", cat), ("status", sta), ("comment", cmt),
     ("owner_id", oid), ("owner_name", own), ("file_path", fpt),
     ("doc_notes", dnt), ("workflow_status", wfs), ("web_access", wba),
     ("task_id", tsk)])

/-- Success branch of `docsvault_get_folder_relations`
(lines 1306–1342): `Result.get("RelatedDocs", {}).get("Doc", [])`, then
element-wise projection with NO singleton-to-list normalization; the
result is returned as a bare list (not wrapped in a dict). -/
def docsvault_get_folder_relations_success (response_dict : PyVal) : Except PyErr PyVal := do
  let result ← getItemPath response_dict ["Docsvault", "Result"]
  let rdv ← pyGetD result "RelatedDocs" (PyVal.dict [])
  let related_docs ← pyGetD rdv "Doc" (PyVal.list [])
  let items ← pyIter related_docs
  let outs ← items.mapM projectDoc
  pure (PyVal.list outs)

/-- Envelope handling of `docsvault_get_folder_relations`
(lines 1304–1345). -/
def docsvault_get_folder_relations_handle (response_dict : PyVal) : Except PyErr PyVal := do
  let sc ← getItemPath response_dict ["Docsvault", "Response", "StatusCode"]
  if pyEqStr sc "0" then
    docsvault_get_folder_relations_success response_dict
  else do
    let msg ← getItemPath response_dict ["Docsvault", "Response", "Message"]
    let em ← pyAddStr "Could not get related documents. " msg
    Except.error (PyErr.valueError em)

/-- `docsvault_get_folder_relations` (lines 1271–1347). -/
def docsvault_get_folder_relations (token_id api_url folder_id : String)
    (http : HttpRequest → HttpResponse) : Except PyErr PyVal :=
  let response := http (docsvault_get_folder_relations_request token_id api_url folder_id)
  if response.status_code == 200 then
    docsvault_get_folder_relations_handle response.body
  else
    Except.error (PyErr.requestException
      ("Could not get related documents. Status code: " ++ toString response.status_code))

/-! ## Test fixtures -/

/-- An HTTP transport returning a fixed response to every request. -/
def constHttp (code : Nat) (body : PyVal) : HttpRequest → HttpResponse :=
  fun _ => ⟨code, body⟩

/-- A response envelope with the given `StatusCode`, `Message` and
`Result` payload. -/
def env (sc m : String) (result : PyVal) : PyVal :=
  PyVal.dict [("Docsvault", PyVal.dict
    [("Response", PyVal.dict [("StatusCode", PyVal.str sc), ("Message", PyVal.str m)]),
     ("Result", result)])]

/-- A response envelope with no `Result` node at all. -/
def envNoResult (sc m : String) : PyVal :=
  PyVal.dict [("Docsvault", PyVal.dict
    [("Response", PyVal.dict [("StatusCode", PyVal.str sc), ("Message", PyVal.str m)])])]

/-- An `Indexes` record as produced by `xmltodict`. -/
def indexNode (i v : String) : PyVal :=
  PyVal.dict [("Index", PyVal.str i), ("IndexValue", PyVal.str v)]

/-- A complete `UserDetail` record with the given field values. -/
def userDetailNode (uid unm ufn uds uem dva wba lic : String) : PyVal :=
  PyVal.dict
    [("UserID", PyVal.str uid), ("UserName", PyVal.str unm),
     ("UserFullName", PyVal.str ufn), ("UserDescription", PyVal.str uds),
     ("UserEmail", PyVal.str uem), ("DVAuthentication", PyVal.str dva),
     ("WebAccess", PyVal.str wba), ("LicenseType", PyVal.str lic)]

/-- A concrete `UserDetail` record. -/
def udFix : PyVal := userDetailNode "u2" "nm2" "fn2" "ds2" "em2" "dv2" "wa2" "lt2"

/-- A concrete `UserDetail` record for `GetConnectedUsers` (adds
`LoginFrom`). -/
def udConnFix : PyVal :=
  PyVal.dict
    [("UserID", PyVal.str "u3"), ("UserName", PyVal.str "nm3"),
     ("UserFullName", PyVal.str "fn3"), ("UserDescription", PyVal.str "ds3"),
     ("UserEmail", PyVal.str "em3"), ("DVAuthentication", PyVal.str "dv3"),
     ("WebAccess", PyVal.str "wa3"), ("LoginFrom", PyVal.str "lf3"),
     ("LicenseType", PyVal.str "lt3")]

/-- A concrete `Group` record. -/
def groupFix : PyVal :=
  PyVal.dict
    [("GroupName", PyVal.str "g1"), ("GroupID", PyVal.str "gid1"),
     ("Description", PyVal.str "gd1")]

/-- A `FileDetail` record with the given scalar field values, an
arbitrary `ListOfIndexes.Indexes` payload `ixs` and extra
(checked-out-related) entries `cks`. -/
def fileDetailNode (ixs : PyVal) (cks : List (String × PyVal))
    (fid pid fnm dsc flg fsz dty pgs ver vnt vow vwn mdd crd acd oid ownr loc dnt prf prn : String) :
    PyVal :=
  PyVal.dict
    ([("FileID", PyVal.str fid), ("ParentID", PyVal.str pid),
      ("FileName", PyVal.str fnm), ("Description", PyVal.str dsc),
      ("FlagName", PyVal.str flg), ("FileSize", PyVal.str fsz),
      ("DocType", PyVal.str dty), ("Pages", PyVal.str pgs),
      ("Version", PyVal.str ver), ("VersionNote", PyVal.str vnt),
      ("VersionOwner", PyVal.str vow), ("VersionOwnerName", PyVal.str vwn),
      ("ModifiedDate", PyVal.str mdd), ("CreatedDate", PyVal.str crd),
      ("AccessedDate", PyVal.str acd), ("OwnerID", PyVal.str oid),
      ("OwnerName", PyVal.str ownr), ("Location", PyVal.str loc),
      ("DocNotes", PyVal.str dnt), ("ProfileID", PyVal.str prf),
      ("ProfileName", PyVal.str prn),
      ("ListOfIndexes", PyVal.dict [("Indexes", ixs)])] ++ cks)

/-- A concrete, complete `FileDetail` record whose `Indexes` payload is
a proper (one-element) list. -/
def fdFix : PyVal :=
  fileDetailNode (PyVal.list [indexNode "i1" "vi1"])
    [("CheckedOut", PyVal.str "true"), ("CheckedOutBy", PyVal.str "cb1"),
     ("CheckedOutByName", PyVal.str "cbn1")]
    "f1" "p1" "n1" "d1" "g1" "s1" "t1" "pg1" "v1" "vn1" "vo1" "von1"
    "md1" "cd1" "ad1" "o1" "on1" "l1" "dn1" "pr1" "prn1"

/-- A concrete, complete `FileDetail` record whose `Indexes` payload is
a lone record (a dict, the way `xmltodict` renders a single nested
`Indexes` element) rather than a list. -/
def fdFixSingletonIndexes : PyVal :=
  fileDetailNode (PyVal.dict [("Index", PyVal.str "i1"), ("IndexValue", PyVal.str "vi1")])
    [("CheckedOut", PyVal.str "true"), ("CheckedOutBy", PyVal.str "cb1"),
     ("CheckedOutByName", PyVal.str "cbn1")]
    "f1" "p1" "n1" "d1" "g1" "s1" "t1" "pg1" "v1" "vn1" "vo1" "von1"
    "md1" "cd1" "ad1" "o1" "on1" "l1" "dn1" "pr1" "prn1"

/-! ## Per-operation reduction lemmas -/

/-- `docsvault_login` on a non-200 response: transport error, independent of the body. -/
theorem docsvault_login_non200 (code : Nat) (b : PyVal) (x y z : String) (h : code ≠ 200) :
    docsvault_login x y z (constHttp code b) =
      Except.error (PyErr.requestException ("Login request failed with status code: " ++ toString code)) := by
  have hb : (code == 200) = false := beq_eq_false_iff_ne.mpr h
  simp [docsvault_login, constHttp, hb]

/-- `docsvault_login` on a 200 response with envelope `env s m res`: the literal status check. -/
theorem docsvault_login_env (s m x y z : String) (res : PyVal) :
    docsvault_login x y z (constHttp 200 (env s m res)) =
      if s == "1" then Except.error (PyErr.valueError ("Login failed. " ++ m))
      else docsvault_login_success (env s m res) := rfl

/-- `docsvault_login_post` on a non-200 response: transport error, independent of the body. -/
theorem docsvault_login_post_non200 (code : Nat) (b : PyVal) (x y z : String) (h : code ≠ 200) :
    docsvault_login_post x y z (constHttp code b) =
      Except.error (PyErr.requestException ("Login request failed with status code: " ++ toString code)) := by
  have hb : (code == 200) = false := beq_eq_false_iff_ne.mpr h
  simp [docsvault_login_post, constHttp, hb]

/-- `docsvault_login_post` on a 200 response with envelope `env s m res`: the literal status check. -/
theorem docsvault_login_post_env (s m x y z : String) (res : PyVal) :
    docsvault_login_post x y z (constHttp 200 (env s m res)) =
      if s == "1" then Except.error (PyErr.valueError ("Login failed. " ++ m))
      else docsvault_login_post_success (env s m res) := rfl

/-- `docsvault_logout` on a non-200 response: transport error, independent of the body. -/
theorem docsvault_logout_non200 (code : Nat) (b : PyVal) (x y z : String) (h : code ≠ 200) :
    docsvault_logout x y z (constHttp code b) =
      Except.error (PyErr.requestException ("Logout request failed with status code: " ++ toString code)) := by
  have hb : (code == 200) = false := beq_eq_false_iff_ne.mpr h
  simp [docsvault_logout, constHttp, hb]

/-- `docsvault_logout` on a 200 response with envelope `env s m res`: the literal status check. -/
theorem docsvault_logout_env (s m x y z : String) (res : PyVal) :
    docsvault_logout x y z (constHttp 200 (env s m res)) =
      if s == "1" then Except.error (PyErr.valueError ("Logout failed. " ++ m))
      else Except.ok PyVal.none := rfl

/-- `docsvault_get_login_user_id` on a non-200 response: transport error, independent of the body. -/
theorem docsvault_get_login_user_id_non200 (code : Nat) (b : PyVal) (x y : String) (h : code ≠ 200) :
    docsvault_get_login_user_id x y (constHttp code b) =
      Except.error (PyErr.requestException ("GetLoginUserID request failed with status code: " ++ toString code)) := by
  have hb : (code == 200) = false := beq_eq_false_iff_ne.mpr h
  simp [docsvault_get_login_user_id, constHttp, hb]

/-- `docsvault_get_login_user_id` on a 200 response with envelope `env s m res`: the literal status check. -/
theorem docsvault_get_login_user_id_env (s m x y : String) (res : PyVal) :
    docsvault_get_login_user_id x y (constHttp 200 (env s m res)) =
      if s == "1" then Except.error (PyErr.valueError ("GetLoginUserID failed. " ++ m))
      else docsvault_get_login_user_id_success (env s m res) := rfl

/-- `docsvault_get_user_details_by_name` on a non-200 response: transport error, independent of the body. -/
theorem docsvault_get_user_details_by_name_non200 (code : Nat) (b : PyVal) (x y z : String) (h : code ≠ 200) :
    docsvault_get_user_details_by_name x y z (constHttp code b) =
      Except.error (PyErr.requestException ("Could not get user details. Status code: " ++ toString code)) := by
  have hb : (code == 200) = false := beq_eq_false_iff_ne.mpr h
  simp [docsvault_get_user_details_by_name, constHttp, hb]

/-- `docsvault_get_user_details_by_name` on a 200 response with envelope `env s m res`: the literal status check. -/
theorem docsvault_get_user_details_by_name_env (s m x y z : String) (res : PyVal) :
    docsvault_get_user_details_by_name x y z (constHttp 200 (env s m res)) =
      if s == "0" then docsvault_get_user_details_by_name_success (env s m res)
      else Except.error (PyErr.valueError ("Could not get user details. " ++ m)) := rfl

/-- `docsvault_get_user_details_by_id` on a non-200 response: transport error, independent of the body. -/
theorem docsvault_get_user_details_by_id_non200 (code : Nat) (b : PyVal) (x y z : String) (h : code ≠ 200) :
    docsvault_get_user_details_by_id x y z (constHttp code b) =
      Except.error (PyErr.requestException ("Could not get user details. Status code: " ++ toString code)) := by
  have hb : (code == 200) = false := beq_eq_false_iff_ne.mpr h
  simp [docsvault_get_user_details_by_id, constHttp, hb]

/-- `docsvault_get_user_details_by_id` on a 200 response with envelope `env s m res`: the literal status check. -/
theorem docsvault_get_user_details_by_id_env (s m x y z : String) (res : PyVal) :
    docsvault_get_user_details_by_id x y z (constHttp 200 (env s m res)) =
      if s == "0" then docsvault_get_user_details_by_id_success (env s m res)
      else Except.error (PyErr.valueError ("Could not get user details. " ++ m)) := rfl

/-- `docsvault_get_user_details_by_email` on a non-200 response: transport error, independent of the body. -/
theorem docsvault_get_user_details_by_email_non200 (code : Nat) (b : PyVal) (x y z : String) (h : code ≠ 200) :
    docsvault_get_user_details_by_email x y z (constHttp code b) =
      Except.error (PyErr.requestException ("Could not get user details. Status code: " ++ toString code)) := by
  have hb : (code == 200) = false := beq_eq_false_iff_ne.mpr h
  simp [docsvault_get_user_details_by_email, constHttp, hb]

/-- `docsvault_get_user_details_by_email` on a 200 response with envelope `env s m res`: the literal status check. -/
theorem docsvault_get_user_details_by_email_env (s m x y z : String) (res : PyVal) :
    docsvault_get_user_details_by_email x y z (constHttp 200 (env s m res)) =
      if s == "0" then docsvault_get_user_details_by_email_success (env s m res)
      else Except.error (PyErr.valueError ("Could not get user details. " ++ m)) := rfl

/-- `docsvault_get_readonly_users` on a non-200 response: transport error, independent of the body. -/
theorem docsvault_get_readonly_users_non200 (code : Nat) (b : PyVal) (x y : String) (h : code ≠ 200) :
    docsvault_get_readonly_users x y (constHttp code b) =
      Except.error (PyErr.requestException ("Could not get readonly users. Status code: " ++ toString code)) := by
  have hb : (code == 200) = false := beq_eq_false_iff_ne.mpr h
  simp [docsvault_get_readonly_users, constHttp, hb]

/-- `docsvault_get_readonly_users` on a 200 response with envelope `env s m res`: the literal status check. -/
theorem docsvault_get_readonly_users_env (s m x y : String) (res : PyVal) :
    docsvault_get_readonly_users x y (constHttp 200 (env s m res)) =
      if s == "0" then docsvault_get_readonly_users_success (env s m res)
      else Except.error (PyErr.valueError ("Could not get readonly users. " ++ m)) := rfl

/-- `docsvault_get_webaccess_users` on a non-200 response: transport error, independent of the body. -/
theorem docsvault_get_webaccess_users_non200 (code : Nat) (b : PyVal) (x y : String) (h : code ≠ 200) :
    docsvault_get_webaccess_users x y (constHttp code b) =
      Except.error (PyErr.requestException ("Could not get Web Access users. Status code: " ++ toString code)) := by
  have hb : (code == 200) = false := beq_eq_false_iff_ne.mpr h
  simp [docsvault_get_webaccess_users, constHttp, hb]

/-- `docsvault_get_webaccess_users` on a 200 response with envelope `env s m res`: the literal status check. -/
theorem docsvault_get_webaccess_users_env (s m x y : String) (res : PyVal) :
    docsvault_get_webaccess_users x y (constHttp 200 (env s m res)) =
      if s == "0" then docsvault_get_webaccess_users_success (env s m res)
      else Except.error (PyErr.valueError ("Could not get Web Access users. " ++ m)) := rfl

/-- `docsvault_get_user_groups_v1` on a non-200 response: transport error, independent of the body. -/
theorem docsvault_get_user_groups_v1_non200 (code : Nat) (b : PyVal) (x y z : String) (h : code ≠ 200) :
    docsvault_get_user_groups_v1 x y z (constHttp code b) =
      Except.error (PyErr.requestException ("Could not get user groups. Status code: " ++ toString code)) := by
  have hb : (code == 200) = false := beq_eq_false_iff_ne.mpr h
  simp [docsvault_get_user_groups_v1, constHttp, hb]

/-- `docsvault_get_user_groups_v1` on a 200 response with envelope `env s m res`: the literal status check. -/
theorem docsvault_get_user_groups_v1_env (s m x y z : String) (res : PyVal) :
    docsvault_get_user_groups_v1 x y z (constHttp 200 (env s m res)) =
      if s == "0" then docsvault_get_user_groups_v1_success (env s m res)
      else Except.error (PyErr.valueError ("Could not get user groups. " ++ m)) := rfl

/-- `docsvault_get_connected_users` on a non-200 response: transport error, independent of the body. -/
theorem docsvault_get_connected_users_non200 (code : Nat) (b : PyVal) (x y : String) (h : code ≠ 200) :
    docsvault_get_connected_users x y (constHttp code b) =
      Except.error (PyErr.requestException ("Could not get connected users. Status code: " ++ toString code)) := by
  have hb : (code == 200) = false := beq_eq_false_iff_ne.mpr h
  simp [docsvault_get_connected_users, constHttp, hb]

/-- `docsvault_get_connected_users` on a 200 response with envelope `env s m res`: the literal status check. -/
theorem docsvault_get_connected_users_env (s m x y : String) (res : PyVal) :
    docsvault_get_connected_users x y (constHttp 200 (env s m res)) =
      if s == "0" then docsvault_get_connected_users_success (env s m res)
      else Except.error (PyErr.valueError ("Could not get connected users. " ++ m)) := rfl

/-- `docsvault_get_user_groups` on a non-200 response: transport error, independent of the body. -/
theorem docsvault_get_user_groups_non200 (code : Nat) (b : PyVal) (x y z : String) (h : code ≠ 200) :
    docsvault_get_user_groups x y z (constHttp code b) =
      Except.error (PyErr.requestException ("Could not get user groups. Status code: " ++ toString code)) := by
  have hb : (code == 200) = false := beq_eq_false_iff_ne.mpr h
  simp [docsvault_get_user_groups, constHttp, hb]

/-- `docsvault_get_user_groups` on a 200 response with envelope `env s m res`: the literal status check. -/
theorem docsvault_get_user_groups_env (s m x y z : String) (res : PyVal) :
    docsvault_get_user_groups x y z (constHttp 200 (env s m res)) =
      if s == "0" then docsvault_get_user_groups_success (env s m res)
      else Except.error (PyErr.valueError ("Could not get user groups. " ++ m)) := rfl

/-- `docsvault_get_file_details` on a non-200 response: transport error, independent of the body. -/
theorem docsvault_get_file_details_non200 (code : Nat) (b : PyVal) (x y z : String) (h : code ≠ 200) :
    docsvault_get_file_details x y z (constHttp code b) =
      Except.error (PyErr.requestException ("Could not get file details. Status code: " ++ toString code)) := by
  have hb : (code == 200) = false := beq_eq_false_iff_ne.mpr h
  simp [docsvault_get_file_details, constHttp, hb]

/-- `docsvault_get_file_details` on a 200 response with envelope `env s m res`: the literal status check. -/
theorem docsvault_get_file_details_env (s m x y z : String) (res : PyVal) :
    docsvault_get_file_details x y z (constHttp 200 (env s m res)) =
      if s == "0" then docsvault_get_file_details_success (env s m res)
      else Except.error (PyErr.valueError ("Could not get file details. " ++ m)) := rfl

/-- `docsvault_get_file_details_by_location` on a non-200 response: transport error, independent of the body. -/
theorem docsvault_get_file_details_by_location_non200 (code : Nat) (b : PyVal) (x y z : String) (h : code ≠ 200) :
    docsvault_get_file_details_by_location x y z (constHttp code b) =
      Except.error (PyErr.requestException ("Could not get file details. Status code: " ++ toString code)) := by
  have hb : (code == 200) = false := beq_eq_false_iff_ne.mpr h
  simp [docsvault_get_file_details_by_location, constHttp, hb]

/-- `docsvault_get_file_details_by_location` on a 200 response with envelope `env s m res`: the literal status check. -/
theorem docsvault_get_file_details_by_location_env (s m x y z : String) (res : PyVal) :
    docsvault_get_file_details_by_location x y z (constHttp 200 (env s m res)) =
      if s == "0" then docsvault_get_file_details_by_location_success (env s m res)
      else Except.error (PyErr.valueError ("Could not get file details. " ++ m)) := rfl

/-- `docsvault_get_file_profile` on a non-200 response: transport error, independent of the body. -/
theorem docsvault_get_file_profile_non200 (code : Nat) (b : PyVal) (x y z : String) (h : code ≠ 200) :
    docsvault_get_file_profile x y z (constHttp code b) =
      Except.error (PyErr.requestException ("Could not get file profile. Status code: " ++ toString code)) := by
  have hb : (code == 200) = false := beq_eq_false_iff_ne.mpr h
  simp [docsvault_get_file_profile, constHttp, hb]

/-- `docsvault_get_file_profile` on a 200 response with envelope `env s m res`: the literal status check. -/
theorem docsvault_get_file_profile_env (s m x y z : String) (res : PyVal) :
    docsvault_get_file_profile x y z (constHttp 200 (env s m res)) =
      if s == "0" then docsvault_get_file_profile_success (env s m res)
      else Except.error (PyErr.valueError ("Could not get file profile. " ++ m)) := rfl

/-- `docsvault_get_checked_out_files_by_user` on a non-200 response: transport error, independent of the body. -/
theorem docsvault_get_checked_out_files_by_user_non200 (code : Nat) (b : PyVal) (x y z : String) (h : code ≠ 200) :
    docsvault_get_checked_out_files_by_user x y z (constHttp code b) =
      Except.error (PyErr.requestException ("Could not get checked out files. Status code: " ++ toString code)) := by
  have hb : (code == 200) = false := beq_eq_false_iff_ne.mpr h
  simp [docsvault_get_checked_out_files_by_user, constHttp, hb]

/-- `docsvault_get_checked_out_files_by_user` on a 200 response with envelope `env s m res`: the literal status check. -/
theorem docsvault_get_checked_out_files_by_user_env (s m x y z : String) (res : PyVal) :
    docsvault_get_checked_out_files_by_user x y z (constHttp 200 (env s m res)) =
      if s == "0" then docsvault_get_checked_out_files_by_user_success (env s m res)
      else Except.error (PyErr.valueError ("Could not get checked out files. " ++ m)) := rfl

/-- `docsvault_get_file_versions` on a non-200 response: transport error, independent of the body. -/
theorem docsvault_get_file_versions_non200 (code : Nat) (b : PyVal) (x y z : String) (h : code ≠ 200) :
    docsvault_get_file_versions x y z (constHttp code b) =
      Except.error (PyErr.requestException ("Could not get file versions. Status code: " ++ toString code)) := by
  have hb : (code == 200) = false := beq_eq_false_iff_ne.mpr h
  simp [docsvault_get_file_versions, constHttp, hb]

/-- `docsvault_get_file_versions` on a 200 response with envelope `env s m res`: the literal status check. -/
theorem docsvault_get_file_versions_env (s m x y z : String) (res : PyVal) :
    docsvault_get_file_versions x y z (constHttp 200 (env s m res)) =
      if s == "0" then docsvault_get_file_versions_success (env s m res)
      else Except.error (PyErr.valueError ("Could not get file versions. " ++ m)) := rfl

/-- `docsvault_get_file_relations` on a non-200 response: transport error, independent of the body. -/
theorem docsvault_get_file_relations_non200 (code : Nat) (b : PyVal) (x y z : String) (h : code ≠ 200) :
    docsvault_get_file_relations x y z (constHttp code b) =
      Except.error (PyErr.requestException ("Could not get related documents. Status code: " ++ toString code)) := by
  have hb : (code == 200) = false := beq_eq_false_iff_ne.mpr h
  simp [docsvault_get_file_relations, constHttp, hb]

/-- `docsvault_get_file_relations` on a 200 response with envelope `env s m res`: the literal status check. -/
theorem docsvault_get_file_relations_env (s m x y z : String) (res : PyVal) :
    docsvault_get_file_relations x y z (constHttp 200 (env s m res)) =
      if s == "0" then docsvault_get_file_relations_success (env s m res)
      else Except.error (PyErr.valueError ("Could not get related documents. " ++ m)) := rfl

/-- `docsvault_get_folder_details_by_id` on a non-200 response: transport error, independent of the body. -/
theorem docsvault_get_folder_details_by_id_non200 (code : Nat) (b : PyVal) (x y z : String) (h : code ≠ 200) :
    docsvault_get_folder_details_by_id x y z (constHttp code b) =
      Except.error (PyErr.requestException ("Could not get folder details. Status code: " ++ toString code)) := by
  have hb : (code == 200) = false := beq_eq_false_iff_ne.mpr h
  simp [docsvault_get_folder_details_by_id, constHttp, hb]

/-- `docsvault_get_folder_details_by_id` on a 200 response with envelope `env s m res`: the literal status check. -/
theorem docsvault_get_folder_details_by_id_env (s m x y z : String) (res : PyVal) :
    docsvault_get_folder_details_by_id x y z (constHttp 200 (env s m res)) =
      if s == "0" then docsvault_get_folder_details_by_id_success (env s m res)
      else Except.error (PyErr.valueError ("Could not get folder details. " ++ m)) := rfl

/-- `docsvault_get_folder_details_by_location` on a non-200 response: transport error, independent of the body. -/
theorem docsvault_get_folder_details_by_location_non200 (code : Nat) (b : PyVal) (x y z : String) (h : code ≠ 200) :
    docsvault_get_folder_details_by_location x y z (constHttp code b) =
      Except.error (PyErr.requestException ("Could not get folder details. Status code: " ++ toString code)) := by
  have hb : (code == 200) = false := beq_eq_false_iff_ne.mpr h
  simp [docsvault_get_folder_details_by_location, constHttp, hb]

/-- `docsvault_get_folder_details_by_location` on a 200 response with envelope `env s m res`: the literal status check. -/
theorem docsvault_get_folder_details_by_location_env (s m x y z : String) (res : PyVal) :
    docsvault_get_folder_details_by_location x y z (constHttp 200 (env s m res)) =
      if s == "0" then docsvault_get_folder_details_by_location_success (env s m res)
      else Except.error (PyErr.valueError ("Could not get folder details. " ++ m)) := rfl

/-- `docsvault_get_folder_profile` on a non-200 response: transport error, independent of the body. -/
theorem docsvault_get_folder_profile_non200 (code : Nat) (b : PyVal) (x y z : String) (h : code ≠ 200) :
    docsvault_get_folder_profile x y z (constHttp code b) =
      Except.error (PyErr.requestException ("Could not get folder profile. Status code: " ++ toString code)) := by
  have hb : (code == 200) = false := beq_eq_false_iff_ne.mpr h
  simp [docsvault_get_folder_profile, constHttp, hb]

/-- `docsvault_get_folder_profile` on a 200 response with envelope `env s m res`: the literal status check. -/
theorem docsvault_get_folder_profile_env (s m x y z : String) (res : PyVal) :
    docsvault_get_folder_profile x y z (constHttp 200 (env s m res)) =
      if s == "0" then docsvault_get_folder_profile_success (env s m res)
      else Except.error (PyErr.valueError ("Could not get folder profile. " ++ m)) := rfl

/-- `docsvault_get_folder_relations` on a non-200 response: transport error, independent of the body. -/
theorem docsvault_get_folder_relations_non200 (code : Nat) (b : PyVal) (x y z : String) (h : code ≠ 200) :
    docsvault_get_folder_relations x y z (constHttp code b) =
      Except.error (PyErr.requestException ("Could not get related documents. Status code: " ++ toString code)) := by
  have hb : (code == 200) = false := beq_eq_false_iff_ne.mpr h
  simp [docsvault_get_folder_relations, constHttp, hb]

/-- `docsvault_get_folder_relations` on a 200 response with envelope `env s m res`: the literal status check. -/
theorem docsvault_get_folder_relations_env (s m x y z : String) (res : PyVal) :
    docsvault_get_folder_relations x y z (constHttp 200 (env s m res)) =
      if s == "0" then docsvault_get_folder_relations_success (env s m res)
      else Except.error (PyErr.valueError ("Could not get related documents. " ++ m)) := rfl

/-- C1: the claim says every operation sends its request to
`{base_url}/DocsvaultAPI/{action}` with exactly one copy of the action
path, e.g. `docsvault_login` to `{base_url}/DocsvaultAPI/Login`.  The
code slips in `docsvault_login` (line 40: `requests.get(full_api_url +
action, …)` after `full_api_url` already ends in the action), so the
login GET goes to `{base_url}/DocsvaultAPI/LoginLogin`; the sibling
`docsvault_login_post` builds the URL as claimed. -/
theorem c1_login_url_duplicates_action :
    (docsvault_login_request "alice" "pw" "http://host/").url
        = "http://host/DocsvaultAPI/LoginLogin"
    ∧ (docsvault_login_request "alice" "pw" "http://host/").url
        ≠ "http://host/DocsvaultAPI/Login"
    ∧ (docsvault_login_post_request "alice" "pw" "http://host/").url
        = "http://host/DocsvaultAPI/LoginPost" :=
  ⟨rfl, by decide, rfl⟩
/-- C3: for every operation, an HTTP response with any status code other
than 200 makes the call fail with a Transport Error
(`requests.exceptions.RequestException`) whose message carries the exact
numeric status code and the operation's label; the result is the same
for every response body (so the body is never parsed) and no Application
Error (`ValueError`) is raised. -/
theorem c3_non200_transport_error (code : Nat) (b b2 : PyVal) (x y z : String)
    (h : code ≠ 200) :
    (docsvault_login x y z (constHttp code b) =
        Except.error (PyErr.requestException ("Login request failed with status code: " ++ toString code))
      ∧ docsvault_login x y z (constHttp code b) = docsvault_login x y z (constHttp code b2))
    ∧ (docsvault_login_post x y z (constHttp code b) =
        Except.error (PyErr.requestException ("Login request failed with status code: " ++ toString code))
      ∧ docsvault_login_post x y z (constHttp code b) = docsvault_login_post x y z (constHttp code b2))
    ∧ (docsvault_logout x y z (constHttp code b) =
        Except.error (PyErr.requestException ("Logout request failed with status code: " ++ toString code))
      ∧ docsvault_logout x y z (constHttp code b) = docsvault_logout x y z (constHttp code b2))
    ∧ (docsvault_get_login_user_id x y (constHttp code b) =
        Except.error (PyErr.requestException ("GetLoginUserID request failed with status code: " ++ toString code))
      ∧ docsvault_get_login_user_id x y (constHttp code b) = docsvault_get_login_user_id x y (constHttp code b2))
    ∧ (docsvault_get_user_details_by_name x y z (constHttp code b) =
        Except.error (PyErr.requestException ("Could not get user details. Status code: " ++ toString code))
      ∧ docsvault_get_user_details_by_name x y z (constHttp code b) = docsvault_get_user_details_by_name x y z (constHttp code b2))
    ∧ (docsvault_get_user_details_by_id x y z (constHttp code b) =
        Except.error (PyErr.requestException ("Could not get user details. Status code: " ++ toString code))
      ∧ docsvault_get_user_details_by_id x y z (constHttp code b) = docsvault_get_user_details_by_id x y z (constHttp code b2))
    ∧ (docsvault_get_user_details_by_email x y z (constHttp code b) =
        Except.error (PyErr.requestException ("Could not get user details. Status code: " ++ toString code))
      ∧ docsvault_get_user_details_by_email x y z (constHttp code b) = docsvault_get_user_details_by_email x y z (constHttp code b2))
    ∧ (docsvault_get_readonly_users x y (constHttp code b) =
        Except.error (PyErr.requestException ("Could not get readonly users. Status code: " ++ toString code))
      ∧ docsvault_get_readonly_users x y (constHttp code b) = docsvault_get_readonly_users x y (constHttp code b2))
    ∧ (docsvault_get_webaccess_users x y (constHttp code b) =
        Except.error (PyErr.requestException ("Could not get Web Access users. Status code: " ++ toString code))
      ∧ docsvault_get_webaccess_users x y (constHttp code b) = docsvault_get_webaccess_users x y (constHttp code b2))
    ∧ (docsvault_get_user_groups_v1 x y z (constHttp code b) =
        Except.error (PyErr.requestException ("Could not get user groups. Status code: " ++ toString code))
      ∧ docsvault_get_user_groups_v1 x y z (constHttp code b) = docsvault_get_user_groups_v1 x y z (constHttp code b2))
    ∧ (docsvault_get_connected_users x y (constHttp code b) =
        Except.error (PyErr.requestException ("Could not get connected users. Status code: " ++ toString code))
      ∧ docsvault_get_connected_users x y (constHttp code b) = docsvault_get_connected_users x y (constHttp code b2))
    ∧ (docsvault_get_user_groups x y z (constHttp code b) =
        Except.error (PyErr.requestException ("Could not get user groups. Status code: " ++ toString code))
      ∧ docsvault_get_user_groups x y z (constHttp code b) = docsvault_get_user_groups x y z (constHttp code b2))
    ∧ (docsvault_get_file_details x y z (constHttp code b) =
        Except.error (PyErr.requestException ("Could not get file details. Status code: " ++ toString code))
      ∧ docsvault_get_file_details x y z (constHttp code b) = docsvault_get_file_details x y z (constHttp code b2))
    ∧ (docsvault_get_file_details_by_location x y z (constHttp code b) =
        Except.error (PyErr.requestException ("Could not get file details. Status code: " ++ toString code))
      ∧ docsvault_get_file_details_by_location x y z (constHttp code b) = docsvault_get_file_details_by_location x y z (constHttp code b2))
    ∧ (docsvault_get_file_profile x y z (constHttp code b) =
        Except.error (PyErr.requestException ("Could not get file profile. Status code: " ++ toString code))
      ∧ docsvault_get_file_profile x y z (constHttp code b) = docsvault_get_file_profile x y z (constHttp code b2))
    ∧ (docsvault_get_checked_out_files_by_user x y z (constHttp code b) =
        Except.error (PyErr.requestException ("Could not get checked out files. Status code: " ++ toString code))
      ∧ docsvault_get_checked_out_files_by_user x y z (constHttp code b) = docsvault_get_checked_out_files_by_user x y z (constHttp code b2))
    ∧ (docsvault_get_file_versions x y z (constHttp code b) =
        Except.error (PyErr.requestException ("Could not get file versions. Status code: " ++ toString code))
      ∧ docsvault_get_file_versions x y z (constHttp code b) = docsvault_get_file_versions x y z (constHttp code b2))
    ∧ (docsvault_get_file_relations x y z (constHttp code b) =
        Except.error (PyErr.requestException ("Could not get related documents. Status code: " ++ toString code))
      ∧ docsvault_get_file_relations x y z (constHttp code b) = docsvault_get_file_relations x y z (constHttp code b2))
    ∧ (docsvault_get_folder_details_by_id x y z (constHttp code b) =
        Except.error (PyErr.requestException ("Could not get folder details. Status code: " ++ toString code))
      ∧ docsvault_get_folder_details_by_id x y z (constHttp code b) = docsvault_get_folder_details_by_id x y z (constHttp code b2))
    ∧ (docsvault_get_folder_details_by_location x y z (constHttp code b) =
        Except.error (PyErr.requestException ("Could not get folder details. Status code: " ++ toString code))
      ∧ docsvault_get_folder_details_by_location x y z (constHttp code b) = docsvault_get_folder_details_by_location x y z (constHttp code b2))
    ∧ (docsvault_get_folder_profile x y z (constHttp code b) =
        Except.error (PyErr.requestException ("Could not get folder profile. Status code: " ++ toString code))
      ∧ docsvault_get_folder_profile x y z (constHttp code b) = docsvault_get_folder_profile x y z (constHttp code b2))
    ∧ (docsvault_get_folder_relations x y z (constHttp code b) =
        Except.error (PyErr.requestException ("Could not get related documents. Status code: " ++ toString code))
      ∧ docsvault_get_folder_relations x y z (constHttp code b) = docsvault_get_folder_relations x y z (constHttp code b2)) :=
  ⟨⟨docsvault_login_non200 code b x y z h,
    (docsvault_login_non200 code b x y z h).trans (docsvault_login_non200 code b2 x y z h).symm⟩,
   ⟨docsvault_login_post_non200 code b x y z h,
    (docsvault_login_post_non200 code b x y z h).trans (docsvault_login_post_non200 code b2 x y z h).symm⟩,
   ⟨docsvault_logout_non200 code b x y z h,
    (docsvault_logout_non200 code b x y z h).trans (docsvault_logout_non200 code b2 x y z h).symm⟩,
   ⟨docsvault_get_login_user_id_non200 code b x y h,
    (docsvault_get_login_user_id_non200 code b x y h).trans (docsvault_get_login_user_id_non200 code b2 x y h).symm⟩,
   ⟨docsvault_get_user_details_by_name_non200 code b x y z h,
    (docsvault_get_user_details_by_name_non200 code b x y z h).trans (docsvault_get_user_details_by_name_non200 code b2 x y z h).symm⟩,
   ⟨docsvault_get_user_details_by_id_non200 code b x y z h,
    (docsvault_get_user_details_by_id_non200 code b x y z h).trans (docsvault_get_user_details_by_id_non200 code b2 x y z h).symm⟩,
   ⟨docsvault_get_user_details_by_email_non200 code b x y z h,
    (docsvault_get_user_details_by_email_non200 code b x y z h).trans (docsvault_get_user_details_by_email_non200 code b2 x y z h).symm⟩,
   ⟨docsvault_get_readonly_users_non200 code b x y h,
    (docsvault_get_readonly_users_non200 code b x y h).trans (docsvault_get_readonly_users_non200 code b2 x y h).symm⟩,
   ⟨docsvault_get_webaccess_users_non200 code b x y h,
    (docsvault_get_webaccess_users_non200 code b x y h).trans (docsvault_get_webaccess_users_non200 code b2 x y h).symm⟩,
   ⟨docsvault_get_user_groups_v1_non200 code b x y z h,
    (docsvault_get_user_groups_v1_non200 code b x y z h).trans (docsvault_get_user_groups_v1_non200 code b2 x y z h).symm⟩,
   ⟨docsvault_get_connected_users_non200 code b x y h,
    (docsvault_get_connected_users_non200 code b x y h).trans (docsvault_get_connected_users_non200 code b2 x y h).symm⟩,
   ⟨docsvault_get_user_groups_non200 code b x y z h,
    (docsvault_get_user_groups_non200 code b x y z h).trans (docsvault_get_user_groups_non200 code b2 x y z h).symm⟩,
   ⟨docsvault_get_file_details_non200 code b x y z h,
    (docsvault_get_file_details_non200 code b x y z h).trans (docsvault_get_file_details_non200 code b2 x y z h).symm⟩,
   ⟨docsvault_get_file_details_by_location_non200 code b x y z h,
    (docsvault_get_file_details_by_location_non200 code b x y z h).trans (docsvault_get_file_details_by_location_non200 code b2 x y z h).symm⟩,
   ⟨docsvault_get_file_profile_non200 code b x y z h,
    (docsvault_get_file_profile_non200 code b x y z h).trans (docsvault_get_file_profile_non200 code b2 x y z h).symm⟩,
   ⟨docsvault_get_checked_out_files_by_user_non200 code b x y z h,
    (docsvault_get_checked_out_files_by_user_non200 code b x y z h).trans (docsvault_get_checked_out_files_by_user_non200 code b2 x y z h).symm⟩,
   ⟨docsvault_get_file_versions_non200 code b x y z h,
    (docsvault_get_file_versions_non200 code b x y z h).trans (docsvault_get_file_versions_non200 code b2 x y z h).symm⟩,
   ⟨docsvault_get_file_relations_non200 code b x y z h,
    (docsvault_get_file_relations_non200 code b x y z h).trans (docsvault_get_file_relations_non200 code b2 x y z h).symm⟩,
   ⟨docsvault_get_folder_details_by_id_non200 code b x y z h,
    (docsvault_get_folder_details_by_id_non200 code b x y z h).trans (docsvault_get_folder_details_by_id_non200 code b2 x y z h).symm⟩,
   ⟨docsvault_get_folder_details_by_location_non200 code b x y z h,
    (docsvault_get_folder_details_by_location_non200 code b x y z h).trans (docsvault_get_folder_details_by_location_non200 code b2 x y z h).symm⟩,
   ⟨docsvault_get_folder_profile_non200 code b x y z h,
    (docsvault_get_folder_profile_non200 code b x y z h).trans (docsvault_get_folder_profile_non200 code b2 x y z h).symm⟩,
   ⟨docsvault_get_folder_relations_non200 code b x y z h,
    (docsvault_get_folder_relations_non200 code b x y z h).trans (docsvault_get_folder_relations_non200 code b2 x y z h).symm⟩⟩

/-- Witness for `c3_non200_transport_error` at status code 404. -/
theorem c3_non200_transport_error_witness :
    docsvault_login "x" "y" "z" (constHttp 404 PyVal.none) =
      Except.error (PyErr.requestException "Login request failed with status code: 404") :=
  (c3_non200_transport_error 404 PyVal.none PyVal.none "x" "y" "z" (by decide)).1.1

/-- C4: for every operation, an HTTP 200 response whose envelope carries
the failure indicator (`StatusCode = "1"`) makes the call fail with an
Application Error (`ValueError`) whose message is the server-supplied
`Message` copied verbatim, prefixed with the failing operation's label;
in particular a `Login` envelope with `StatusCode "1"` and `Message
"bad creds"` fails with exactly the message `"Login failed. bad creds"`. -/
theorem c4_failure_envelope_application_error (m x y z : String) :
    (docsvault_login x y z (constHttp 200 (env "1" m (PyVal.dict []))) =
        Except.error (PyErr.valueError ("Login failed. " ++ m)))
    ∧ (docsvault_login_post x y z (constHttp 200 (env "1" m (PyVal.dict []))) =
        Except.error (PyErr.valueError ("Login failed. " ++ m)))
    ∧ (docsvault_logout x y z (constHttp 200 (env "1" m (PyVal.dict []))) =
        Except.error (PyErr.valueError ("Logout failed. " ++ m)))
    ∧ (docsvault_get_login_user_id x y (constHttp 200 (env "1" m (PyVal.dict []))) =
        Except.error (PyErr.valueError ("GetLoginUserID failed. " ++ m)))
    ∧ (docsvault_get_user_details_by_name x y z (constHttp 200 (env "1" m (PyVal.dict []))) =
        Except.error (PyErr.valueError ("Could not get user details. " ++ m)))
    ∧ (docsvault_get_user_details_by_id x y z (constHttp 200 (env "1" m (PyVal.dict []))) =
        Except.error (PyErr.valueError ("Could not get user details. " ++ m)))
    ∧ (docsvault_get_user_details_by_email x y z (constHttp 200 (env "1" m (PyVal.dict []))) =
        Except.error (PyErr.valueError ("Could not get user details. " ++ m)))
    ∧ (docsvault_get_readonly_users x y (constHttp 200 (env "1" m (PyVal.dict []))) =
        Except.error (PyErr.valueError ("Could not get readonly users. " ++ m)))
    ∧ (docsvault_get_webaccess_users x y (constHttp 200 (env "1" m (PyVal.dict []))) =
        Except.error (PyErr.valueError ("Could not get Web Access users. " ++ m)))
    ∧ (docsvault_get_user_groups_v1 x y z (constHttp 200 (env "1" m (PyVal.dict []))) =
        Except.error (PyErr.valueError ("Could not get user groups. " ++ m)))
    ∧ (docsvault_get_connected_users x y (constHttp 200 (env "1" m (PyVal.dict []))) =
        Except.error (PyErr.valueError ("Could not get connected users. " ++ m)))
    ∧ (docsvault_get_user_groups x y z (constHttp 200 (env "1" m (PyVal.dict []))) =
        Except.error (PyErr.valueError ("Could not get user groups. " ++ m)))
    ∧ (docsvault_get_file_details x y z (constHttp 200 (env "1" m (PyVal.dict []))) =
        Except.error (PyErr.valueError ("Could not get file details. " ++ m)))
    ∧ (docsvault_get_file_details_by_location x y z (constHttp 200 (env "1" m (PyVal.dict []))) =
        Except.error (PyErr.valueError ("Could not get file details. " ++ m)))
    ∧ (docsvault_get_file_profile x y z (constHttp 200 (env "1" m (PyVal.dict []))) =
        Except.error (PyErr.valueError ("Could not get file profile. " ++ m)))
    ∧ (docsvault_get_checked_out_files_by_user x y z (constHttp 200 (env "1" m (PyVal.dict []))) =
        Except.error (PyErr.valueError ("Could not get checked out files. " ++ m)))
    ∧ (docsvault_get_file_versions x y z (constHttp 200 (env "1" m (PyVal.dict []))) =
        Except.error (PyErr.valueError ("Could not get file versions. " ++ m)))
    ∧ (docsvault_get_file_relations x y z (constHttp 200 (env "1" m (PyVal.dict []))) =
        Except.error (PyErr.valueError ("Could not get related documents. " ++ m)))
    ∧ (docsvault_get_folder_details_by_id x y z (constHttp 200 (env "1" m (PyVal.dict []))) =
        Except.error (PyErr.valueError ("Could not get folder details. " ++ m)))
    ∧ (docsvault_get_folder_details_by_location x y z (constHttp 200 (env "1" m (PyVal.dict []))) =
        Except.error (PyErr.valueError ("Could not get folder details. " ++ m)))
    ∧ (docsvault_get_folder_profile x y z (constHttp 200 (env "1" m (PyVal.dict []))) =
        Except.error (PyErr.valueError ("Could not get folder profile. " ++ m)))
    ∧ (docsvault_get_folder_relations x y z (constHttp 200 (env "1" m (PyVal.dict []))) =
        Except.error (PyErr.valueError ("Could not get related documents. " ++ m)))
    ∧ (docsvault_login "x" "y" "z" (constHttp 200 (env "1" "bad creds" (PyVal.dict []))) =
        Except.error (PyErr.valueError "Login failed. bad creds")) :=
  ⟨rfl, rfl, rfl, rfl, rfl, rfl, rfl, rfl, rfl, rfl, rfl, rfl, rfl, rfl, rfl, rfl, rfl, rfl, rfl, rfl, rfl, rfl, rfl⟩

/-- C6 (amended): the status-check polarity differs between operation
families and each operation check is literal: `docsvault_login`,
`docsvault_login_post`, `docsvault_logout` AND
`docsvault_get_login_user_id` fail (raise an Application Error) exactly
when the envelope StatusCode string equals "1" and proceed to
their success path on every other value, whereas every other operation
succeeds exactly when StatusCode equals "0" and raises an
Application Error on every other value.  (The original claim omitted
`docsvault_get_login_user_id` from the "1"-polarity family.) -/
theorem c6_amended_status_polarity (s m : String) :
    ((s = "1" → docsvault_login "x" "y" "z" (constHttp 200 (env s m (PyVal.dict [("TokenID", PyVal.str "tok")]))) =
          Except.error (PyErr.valueError ("Login failed. " ++ m)))
      ∧ (s ≠ "1" → ∃ v, docsvault_login "x" "y" "z" (constHttp 200 (env s m (PyVal.dict [("TokenID", PyVal.str "tok")]))) = Except.ok v))
    ∧ ((s = "1" → docsvault_login_post "x" "y" "z" (constHttp 200 (env s m (PyVal.str "tok"))) =
          Except.error (PyErr.valueError ("Login failed. " ++ m)))
      ∧ (s ≠ "1" → ∃ v, docsvault_login_post "x" "y" "z" (constHttp 200 (env s m (PyVal.str "tok"))) = Except.ok v))
    ∧ ((s = "1" → docsvault_logout "x" "y" "z" (constHttp 200 (env s m (PyVal.dict []))) =
          Except.error (PyErr.valueError ("Logout failed. " ++ m)))
      ∧ (s ≠ "1" → ∃ v, docsvault_logout "x" "y" "z" (constHttp 200 (env s m (PyVal.dict []))) = Except.ok v))
    ∧ ((s = "1" → docsvault_get_login_user_id "x" "y" (constHttp 200 (env s m (PyVal.dict [("UserID", PyVal.str "u1")]))) =
          Except.error (PyErr.valueError ("GetLoginUserID failed. " ++ m)))
      ∧ (s ≠ "1" → ∃ v, docsvault_get_login_user_id "x" "y" (constHttp 200 (env s m (PyVal.dict [("UserID", PyVal.str "u1")]))) = Except.ok v))
    ∧ ((s = "0" → ∃ v, docsvault_get_user_details_by_name "x" "y" "z" (constHttp 200 (env s m (PyVal.dict [("UserDetail", udFix)]))) = Except.ok v)
      ∧ (s ≠ "0" → docsvault_get_user_details_by_name "x" "y" "z" (constHttp 200 (env s m (PyVal.dict [("UserDetail", udFix)]))) =
          Except.error (PyErr.valueError ("Could not get user details. " ++ m))))
    ∧ ((s = "0" → ∃ v, docsvault_get_user_details_by_id "x" "y" "z" (constHttp 200 (env s m (PyVal.dict [("UserDetail", udFix)]))) = Except.ok v)
      ∧ (s ≠ "0" → docsvault_get_user_details_by_id "x" "y" "z" (constHttp 200 (env s m (PyVal.dict [("UserDetail", udFix)]))) =
          Except.error (PyErr.valueError ("Could not get user details. " ++ m))))
    ∧ ((s = "0" → ∃ v, docsvault_get_user_details_by_email "x" "y" "z" (constHttp 200 (env s m (PyVal.dict [("UserDetail", udFix)]))) = Except.ok v)
      ∧ (s ≠ "0" → docsvault_get_user_details_by_email "x" "y" "z" (constHttp 200 (env s m (PyVal.dict [("UserDetail", udFix)]))) =
          Except.error (PyErr.valueError ("Could not get user details. " ++ m))))
    ∧ ((s = "0" → ∃ v, docsvault_get_readonly_users "x" "y" (constHttp 200 (env s m (PyVal.dict [("UserDetail", udFix)]))) = Except.ok v)
      ∧ (s ≠ "0" → docsvault_get_readonly_users "x" "y" (constHttp 200 (env s m (PyVal.dict [("UserDetail", udFix)]))) =
          Except.error (PyErr.valueError ("Could not get readonly users. " ++ m))))
    ∧ ((s = "0" → ∃ v, docsvault_get_webaccess_users "x" "y" (constHttp 200 (env s m (PyVal.dict [("UserDetail", udFix)]))) = Except.ok v)
      ∧ (s ≠ "0" → docsvault_get_webaccess_users "x" "y" (constHttp 200 (env s m (PyVal.dict [("UserDetail", udFix)]))) =
          Except.error (PyErr.valueError ("Could not get Web Access users. " ++ m))))
    ∧ ((s = "0" → ∃ v, docsvault_get_user_groups_v1 "x" "y" "z" (constHttp 200 (env s m (PyVal.dict [("Group", groupFix)]))) = Except.ok v)
      ∧ (s ≠ "0" → docsvault_get_user_groups_v1 "x" "y" "z" (constHttp 200 (env s m (PyVal.dict [("Group", groupFix)]))) =
          Except.error (PyErr.valueError ("Could not get user groups. " ++ m))))
    ∧ ((s = "0" → ∃ v, docsvault_get_connected_users "x" "y" (constHttp 200 (env s m (PyVal.dict [("UserDetail", udConnFix)]))) = Except.ok v)
      ∧ (s ≠ "0" → docsvault_get_connected_users "x" "y" (constHttp 200 (env s m (PyVal.dict [("UserDetail", udConnFix)]))) =
          Except.error (PyErr.valueError ("Could not get connected users. " ++ m))))
    ∧ ((s = "0" → ∃ v, docsvault_get_user_groups "x" "y" "z" (constHttp 200 (env s m (PyVal.dict [("Group", groupFix)]))) = Except.ok v)
      ∧ (s ≠ "0" → docsvault_get_user_groups "x" "y" "z" (constHttp 200 (env s m (PyVal.dict [("Group", groupFix)]))) =
          Except.error (PyErr.valueError ("Could not get user groups. " ++ m))))
    ∧ ((s = "0" → ∃ v, docsvault_get_file_details "x" "y" "z" (constHttp 200 (env s m (PyVal.dict [("FileDetail", fdFix)]))) = Except.ok v)
      ∧ (s ≠ "0" → docsvault_get_file_details "x" "y" "z" (constHttp 200 (env s m (PyVal.dict [("FileDetail", fdFix)]))) =
          Except.error (PyErr.valueError ("Could not get file details. " ++ m))))
    ∧ ((s = "0" → ∃ v, docsvault_get_file_details_by_location "x" "y" "z" (constHttp 200 (env s m (PyVal.dict [("FileDetail", fdFix)]))) = Except.ok v)
      ∧ (s ≠ "0" → docsvault_get_file_details_by_location "x" "y" "z" (constHttp 200 (env s m (PyVal.dict [("FileDetail", fdFix)]))) =
          Except.error (PyErr.valueError ("Could not get file details. " ++ m))))
    ∧ ((s = "0" → ∃ v, docsvault_get_file_profile "x" "y" "z" (constHttp 200 (env s m (PyVal.dict [("FileDetail", fdFix)]))) = Except.ok v)
      ∧ (s ≠ "0" → docsvault_get_file_profile "x" "y" "z" (constHttp 200 (env s m (PyVal.dict [("FileDetail", fdFix)]))) =
          Except.error (PyErr.valueError ("Could not get file profile. " ++ m))))
    ∧ ((s = "0" → ∃ v, docsvault_get_checked_out_files_by_user "x" "y" "z" (constHttp 200 (env s m (PyVal.dict []))) = Except.ok v)
      ∧ (s ≠ "0" → docsvault_get_checked_out_files_by_user "x" "y" "z" (constHttp 200 (env s m (PyVal.dict []))) =
          Except.error (PyErr.valueError ("Could not get checked out files. " ++ m))))
    ∧ ((s = "0" → ∃ v, docsvault_get_file_versions "x" "y" "z" (constHttp 200 (env s m (PyVal.dict []))) = Except.ok v)
      ∧ (s ≠ "0" → docsvault_get_file_versions "x" "y" "z" (constHttp 200 (env s m (PyVal.dict []))) =
          Except.error (PyErr.valueError ("Could not get file versions. " ++ m))))
    ∧ ((s = "0" → ∃ v, docsvault_get_file_relations "x" "y" "z" (constHttp 200 (env s m (PyVal.dict []))) = Except.ok v)
      ∧ (s ≠ "0" → docsvault_get_file_relations "x" "y" "z" (constHttp 200 (env s m (PyVal.dict []))) =
          Except.error (PyErr.valueError ("Could not get related documents. " ++ m))))
    ∧ ((s = "0" → ∃ v, docsvault_get_folder_details_by_id "x" "y" "z" (constHttp 200 (env s m (PyVal.dict []))) = Except.ok v)
      ∧ (s ≠ "0" → docsvault_get_folder_details_by_id "x" "y" "z" (constHttp 200 (env s m (PyVal.dict []))) =
          Except.error (PyErr.valueError ("Could not get folder details. " ++ m))))
    ∧ ((s = "0" → ∃ v, docsvault_get_folder_details_by_location "x" "y" "z" (constHttp 200 (env s m (PyVal.dict []))) = Except.ok v)
      ∧ (s ≠ "0" → docsvault_get_folder_details_by_location "x" "y" "z" (constHttp 200 (env s m (PyVal.dict []))) =
          Except.error (PyErr.valueError ("Could not get folder details. " ++ m))))
    ∧ ((s = "0" → ∃ v, docsvault_get_folder_profile "x" "y" "z" (constHttp 200 (env s m (PyVal.dict []))) = Except.ok v)
      ∧ (s ≠ "0" → docsvault_get_folder_profile "x" "y" "z" (constHttp 200 (env s m (PyVal.dict []))) =
          Except.error (PyErr.valueError ("Could not get folder profile. " ++ m))))
    ∧ ((s = "0" → ∃ v, docsvault_get_folder_relations "x" "y" "z" (constHttp 200 (env s m (PyVal.dict []))) = Except.ok v)
      ∧ (s ≠ "0" → docsvault_get_folder_relations "x" "y" "z" (constHttp 200 (env s m (PyVal.dict []))) =
          Except.error (PyErr.valueError ("Could not get related documents. " ++ m)))) :=
  ⟨⟨fun h => by subst h; rfl,
    fun h => by rw [docsvault_login_env, beq_eq_false_iff_ne.mpr h]; exact ⟨_, rfl⟩⟩,
   ⟨fun h => by subst h; rfl,
    fun h => by rw [docsvault_login_post_env, beq_eq_false_iff_ne.mpr h]; exact ⟨_, rfl⟩⟩,
   ⟨fun h => by subst h; rfl,
    fun h => by rw [docsvault_logout_env, beq_eq_false_iff_ne.mpr h]; exact ⟨_, rfl⟩⟩,
   ⟨fun h => by subst h; rfl,
    fun h => by rw [docsvault_get_login_user_id_env, beq_eq_false_iff_ne.mpr h]; exact ⟨_, rfl⟩⟩,
   ⟨fun h => by subst h; exact ⟨_, rfl⟩,
    fun h => by rw [docsvault_get_user_details_by_name_env, beq_eq_false_iff_ne.mpr h]; try rfl⟩,
   ⟨fun h => by subst h; exact ⟨_, rfl⟩,
    fun h => by rw [docsvault_get_user_details_by_id_env, beq_eq_false_iff_ne.mpr h]; try rfl⟩,
   ⟨fun h => by subst h; exact ⟨_, rfl⟩,
    fun h => by rw [docsvault_get_user_details_by_email_env, beq_eq_false_iff_ne.mpr h]; try rfl⟩,
   ⟨fun h => by subst h; exact ⟨_, rfl⟩,
    fun h => by rw [docsvault_get_readonly_users_env, beq_eq_false_iff_ne.mpr h]; try rfl⟩,
   ⟨fun h => by subst h; exact ⟨_, rfl⟩,
    fun h => by rw [docsvault_get_webaccess_users_env, beq_eq_false_iff_ne.mpr h]; try rfl⟩,
   ⟨fun h => by subst h; exact ⟨_, rfl⟩,
    fun h => by rw [docsvault_get_user_groups_v1_env, beq_eq_false_iff_ne.mpr h]; try rfl⟩,
   ⟨fun h => by subst h; exact ⟨_, rfl⟩,
    fun h => by rw [docsvault_get_connected_users_env, beq_eq_false_iff_ne.mpr h]; try rfl⟩,
   ⟨fun h => by subst h; exact ⟨_, rfl⟩,
    fun h => by rw [docsvault_get_user_groups_env, beq_eq_false_iff_ne.mpr h]; try rfl⟩,
   ⟨fun h => by subst h; exact ⟨_, rfl⟩,
    fun h => by rw [docsvault_get_file_details_env, beq_eq_false_iff_ne.mpr h]; try rfl⟩,
   ⟨fun h => by subst h; exact ⟨_, rfl⟩,
    fun h => by rw [docsvault_get_file_details_by_location_env, beq_eq_false_iff_ne.mpr h]; try rfl⟩,
   ⟨fun h => by subst h; exact ⟨_, rfl⟩,
    fun h => by rw [docsvault_get_file_profile_env, beq_eq_false_iff_ne.mpr h]; try rfl⟩,
   ⟨fun h => by subst h; exact ⟨_, rfl⟩,
    fun h => by rw [docsvault_get_checked_out_files_by_user_env, beq_eq_false_iff_ne.mpr h]; try rfl⟩,
   ⟨fun h => by subst h; exact ⟨_, rfl⟩,
    fun h => by rw [docsvault_get_file_versions_env, beq_eq_false_iff_ne.mpr h]; try rfl⟩,
   ⟨fun h => by subst h; exact ⟨_, rfl⟩,
    fun h => by rw [docsvault_get_file_relations_env, beq_eq_false_iff_ne.mpr h]; try rfl⟩,
   ⟨fun h => by subst h; exact ⟨_, rfl⟩,
    fun h => by rw [docsvault_get_folder_details_by_id_env, beq_eq_false_iff_ne.mpr h]; try rfl⟩,
   ⟨fun h => by subst h; exact ⟨_, rfl⟩,
    fun h => by rw [docsvault_get_folder_details_by_location_env, beq_eq_false_iff_ne.mpr h]; try rfl⟩,
   ⟨fun h => by subst h; exact ⟨_, rfl⟩,
    fun h => by rw [docsvault_get_folder_profile_env, beq_eq_false_iff_ne.mpr h]; try rfl⟩,
   ⟨fun h => by subst h; exact ⟨_, rfl⟩,
    fun h => by rw [docsvault_get_folder_relations_env, beq_eq_false_iff_ne.mpr h]; try rfl⟩⟩

/-- Witness for `c6_amended_status_polarity` at StatusCode "1". -/
theorem c6_amended_status_polarity_witness :
    docsvault_login "x" "y" "z"
        (constHttp 200 (env "1" "mm" (PyVal.dict [("TokenID", PyVal.str "tok")]))) =
      Except.error (PyErr.valueError ("Login failed. " ++ "mm")) :=
  (c6_amended_status_polarity "1" "mm").1.1 rfl

/-- C6 (counterexample to the original claim): for an envelope with
StatusCode "2", `docsvault_get_login_user_id` — which is not one of
the three login-family operations the claim names — proceeds to its
success path and returns the user id, instead of raising an Application
Error as the claim requires of every non-login operation. -/
theorem c6_counterexample_get_login_user_id_status2 :
    docsvault_get_login_user_id "x" "y"
        (constHttp 200 (env "2" "msg" (PyVal.dict [("UserID", PyVal.str "5")]))) =
      Except.ok (PyVal.str "5") := rfl

/-- C2 (counterexample to the original claim): the claim requires the
nested node `ListOfIndexes.Indexes` of `docsvault_get_file_details` to
be normalized, so that an envelope containing exactly one such record
yields a one-element list of projected records; but on a success
envelope whose `Indexes` payload is a lone record (a dict, as
`xmltodict` renders a single element), the code iterates over the
dict's keys and subscripts the resulting strings, so the call raises a
`TypeError` instead of returning a list. -/
theorem c2_counterexample_nested_singleton :
    docsvault_get_file_details "x" "y" "z"
        (constHttp 200 (env "0" "m" (PyVal.dict [("FileDetail", fdFixSingletonIndexes)]))) =
      Except.error PyErr.typeError := rfl

/-- C2 (amended): top-level singleton-or-list result nodes (such as
`UserDetail` in `docsvault_get_readonly_users`) are normalized — an
envelope with exactly one record yields a one-element list and a
multi-record envelope a list of the same length, the projection applied
element-wise in both cases — but the nested nodes
`ListOfIndexes.Indexes` in `docsvault_get_file_details` and
`RelatedDocs.Doc` in `docsvault_get_folder_relations` are NOT
normalized: a lone record there is iterated as a mapping and the call
fails with a `TypeError` / `AttributeError` instead of producing a
one-element list. -/
theorem c2_amended_singleton_normalization (uid unm ufn uds uem dva wba lic : String) :
    (docsvault_get_readonly_users "x" "y"
        (constHttp 200 (env "0" "m"
          (PyVal.dict [("UserDetail", userDetailNode uid unm ufn uds uem dva wba lic)]))) =
      Except.ok (PyVal.list [PyVal.dict
        [("user_id", PyVal.str uid), ("user_name", PyVal.str unm),
         ("full_name", PyVal.str ufn), ("description", PyVal.str uds),
         ("email", PyVal.str uem), ("dv_authentication", PyVal.str dva),
         ("web_access", PyVal.str wba), ("license_type", PyVal.str lic)]]))
    ∧ (docsvault_get_readonly_users "x" "y"
        (constHttp 200 (env "0" "m"
          (PyVal.dict [("UserDetail", PyVal.list
            [userDetailNode uid unm ufn uds uem dva wba lic, udFix])]))) =
      Except.ok (PyVal.list
        [PyVal.dict
          [("user_id", PyVal.str uid), ("user_name", PyVal.str unm),
           ("full_name", PyVal.str ufn), ("description", PyVal.str uds),
           ("email", PyVal.str uem), ("dv_authentication", PyVal.str dva),
           ("web_access", PyVal.str wba), ("license_type", PyVal.str lic)],
         PyVal.dict
          [("user_id", PyVal.str "u2"), ("user_name", PyVal.str "nm2"),
           ("full_name", PyVal.str "fn2"), ("description", PyVal.str "ds2"),
           ("email", PyVal.str "em2"), ("dv_authentication", PyVal.str "dv2"),
           ("web_access", PyVal.str "wa2"), ("license_type", PyVal.str "lt2")]]))
    ∧ (docsvault_get_file_details "x" "y" "z"
        (constHttp 200 (env "0" "m" (PyVal.dict [("FileDetail", fdFixSingletonIndexes)]))) =
      Except.error PyErr.typeError)
    ∧ (docsvault_get_folder_relations "x" "y" "z"
        (constHttp 200 (env "0" "m" (PyVal.dict [("RelatedDocs",
          PyVal.dict [("Doc", PyVal.dict [("DocID", PyVal.str "1")])])]))) =
      Except.error PyErr.attributeError) :=
  ⟨rfl, rfl, rfl, rfl⟩

/-- C5 (counterexample to the original claim): the claim says a success
envelope whose token field is empty OR ABSENT makes `docsvault_login`
fail with the `ValueError` "Login failed. Token ID not found in API
response."; but when `Result` carries no `TokenID` key at all the
subscript `response_dict["Docsvault"]["Result"]["TokenID"]` raises a
`KeyError`, which is a different exception from the claimed
`ValueError`. -/
theorem c5_counterexample_absent_token_keyerror :
    (docsvault_login "x" "y" "z" (constHttp 200 (env "0" "m" (PyVal.dict []))) =
      Except.error (PyErr.keyError "TokenID"))
    ∧ ((Except.error (PyErr.keyError "TokenID") : Except PyErr PyVal) ≠
        Except.error (PyErr.valueError "Login failed. Token ID not found in API response.")) :=
  ⟨rfl, fun h => by injection h with h2; exact PyErr.noConfusion h2⟩

/-- C5 (amended): for both login variants, a success envelope whose
token field is present but empty — the empty string, or `None` (the way
`xmltodict` renders an empty element) — makes the call fail with the
Application Error `ValueError "Login failed. Token ID not found in API
response."` rather than return a token; a token field missing from the
envelope altogether instead raises a `KeyError` naming the missing key
(`TokenID` for `docsvault_login`, `Result` for `docsvault_login_post`). -/
theorem c5_amended_empty_token (m : String) :
    (docsvault_login "x" "y" "z"
        (constHttp 200 (env "0" m (PyVal.dict [("TokenID", PyVal.str "")]))) =
      Except.error (PyErr.valueError "Login failed. Token ID not found in API response."))
    ∧ (docsvault_login "x" "y" "z"
        (constHttp 200 (env "0" m (PyVal.dict [("TokenID", PyVal.none)]))) =
      Except.error (PyErr.valueError "Login failed. Token ID not found in API response."))
    ∧ (docsvault_login_post "x" "y" "z"
        (constHttp 200 (env "0" m (PyVal.str ""))) =
      Except.error (PyErr.valueError "Login failed. Token ID not found in API response."))
    ∧ (docsvault_login_post "x" "y" "z"
        (constHttp 200 (env "0" m PyVal.none)) =
      Except.error (PyErr.valueError "Login failed. Token ID not found in API response."))
    ∧ (docsvault_login "x" "y" "z"
        (constHttp 200 (env "0" m (PyVal.dict []))) =
      Except.error (PyErr.keyError "TokenID"))
    ∧ (docsvault_login_post "x" "y" "z"
        (constHttp 200 (envNoResult "0" m)) =
      Except.error (PyErr.keyError "Result")) :=
  ⟨rfl, rfl, rfl, rfl, rfl, rfl⟩

/-- C8: the two login variants read the session token from different
places in the same success envelope — `docsvault_login` returns the
nested `Result.TokenID` value, while `docsvault_login_post` returns the
top-level `Result` value directly (so on an envelope whose `Result` is
a record, the POST variant returns the whole record, and on an envelope
whose `Result` is a bare string, the GET variant raises a `TypeError`
subscripting it while the POST variant returns it). -/
theorem c8_token_read_from_different_fields :
    (docsvault_login "x" "y" "z"
        (constHttp 200 (env "0" "m" (PyVal.dict [("TokenID", PyVal.str "tok")]))) =
      Except.ok (PyVal.str "tok"))
    ∧ (docsvault_login_post "x" "y" "z"
        (constHttp 200 (env "0" "m" (PyVal.dict [("TokenID", PyVal.str "tok")]))) =
      Except.ok (PyVal.dict [("TokenID", PyVal.str "tok")]))
    ∧ (docsvault_login "x" "y" "z"
        (constHttp 200 (env "0" "m" (PyVal.str "tok"))) =
      Except.error PyErr.typeError)
    ∧ (docsvault_login_post "x" "y" "z"
        (constHttp 200 (env "0" "m" (PyVal.str "tok"))) =
      Except.ok (PyVal.str "tok")) :=
  ⟨rfl, rfl, rfl, rfl⟩

/-- C9: for `docsvault_get_checked_out_files_by_user`,
`docsvault_get_file_versions` and `docsvault_get_file_relations`, a
success envelope (StatusCode "0") whose `Result` contains no
`FileDetail` node does not raise: the call returns normally with an
empty list under its result key. -/
theorem c9_missing_file_detail_empty_list :
    (docsvault_get_checked_out_files_by_user "x" "y" "z"
        (constHttp 200 (env "0" "m" (PyVal.dict []))) =
      Except.ok (PyVal.dict [("checked_out_files", PyVal.list [])]))
    ∧ (docsvault_get_file_versions "x" "y" "z"
        (constHttp 200 (env "0" "m" (PyVal.dict []))) =
      Except.ok (PyVal.dict [("file_versions", PyVal.list [])]))
    ∧ (docsvault_get_file_relations "x" "y" "z"
        (constHttp 200 (env "0" "m" (PyVal.dict []))) =
      Except.ok (PyVal.dict [("related_documents", PyVal.list [])])) :=
  ⟨rfl, rfl, rfl⟩

/-- C10: the module defines `docsvault_get_user_groups` twice; the
second definition (parameter order `token_id, api_url, user_id`)
shadows the first (parameter order `token_id, user_id, api_url`), and
the two compute the same function up to swapping their second and third
arguments: for all inputs `t`, `u`, `a` (and any transport), the first
applied to `(t, u, a)` equals the second applied to `(t, a, u)`. -/
theorem c10_user_groups_shadowed_equal_up_to_arg_swap
    (t u a : String) (http : HttpRequest → HttpResponse) :
    docsvault_get_user_groups_v1 t u a http = docsvault_get_user_groups t a u http := rfl

/-- C7: textual-boolean coercion is applied field-by-field, not
uniformly.  On a success envelope whose `FileDetail` node carries
`CheckedOut = cko`, `docsvault_get_file_details` returns
`checked_out = PyVal.bool (cko == "true")` — the boolean `true` exactly
for the string `"true"`, boolean `false` for every other string, and
boolean `false` when `CheckedOut` is absent — while
`docsvault_get_file_details_by_location` returns
`checked_out = PyVal.str cko`, the string copied verbatim.  All other
projected fields in both wrappers carry the source field values
verbatim (with the documented key renaming, and with the index records
re-keyed element-wise in `docsvault_get_file_details` and copied raw in
the location variant). -/
theorem c7_checked_out_coercion_field_by_field
    (cko ckb ckn fid pid fnm dsc flg fsz dty pgs ver vnt vow vwn mdd crd acd oid ownr loc dnt prf prn ix1 iv1 : String) :
    (docsvault_get_file_details "x" "y" "z"
        (constHttp 200 (env "0" "m" (PyVal.dict [("FileDetail",
          fileDetailNode (PyVal.list [indexNode ix1 iv1])
            [("CheckedOut", PyVal.str cko), ("CheckedOutBy", PyVal.str ckb),
             ("CheckedOutByName", PyVal.str ckn)]
            fid pid fnm dsc flg fsz dty pgs ver vnt vow vwn mdd crd acd oid ownr loc dnt prf prn)]))) =
      Except.ok (PyVal.dict
        [("file_id", PyVal.str fid), ("parent_id", PyVal.str pid),
         ("file_name", PyVal.str fnm), ("description", PyVal.str dsc),
         ("flag_name", PyVal.str flg), ("file_size", PyVal.str fsz),
         ("doc_type", PyVal.str dty), ("pages", PyVal.str pgs),
         ("version", PyVal.str ver), ("version_note", PyVal.str vnt),
         ("version_owner", PyVal.str vow), ("version_owner_name", PyVal.str vwn),
         ("modified_date", PyVal.str mdd), ("created_date", PyVal.str crd),
         ("accessed_date", PyVal.str acd),
         ("checked_out", PyVal.bool (cko == "true")),
         ("checked_out_by", PyVal.str ckb), ("checked_out_by_name", PyVal.str ckn),
         ("owner_id", PyVal.str oid), ("owner_name", PyVal.str ownr),
         ("location", PyVal.str loc), ("doc_notes", PyVal.str dnt),
         ("profile_id", PyVal.str prf), ("profile_name", PyVal.str prn),
         ("indexes", PyVal.list
           [PyVal.dict [("index", PyVal.str ix1), ("index_value", PyVal.str iv1)]])]))
    ∧ (docsvault_get_file_details "x" "y" "z"
        (constHttp 200 (env "0" "m" (PyVal.dict [("FileDetail",
          fileDetailNode (PyVal.list [indexNode ix1 iv1]) []
            fid pid fnm dsc flg fsz dty pgs ver vnt vow vwn mdd crd acd oid ownr loc dnt prf prn)]))) =
      Except.ok (PyVal.dict
        [("file_id", PyVal.str fid), ("parent_id", PyVal.str pid),
         ("file_name", PyVal.str fnm), ("description", PyVal.str dsc),
         ("flag_name", PyVal.str flg), ("file_size", PyVal.str fsz),
         ("doc_type", PyVal.str dty), ("pages", PyVal.str pgs),
         ("version", PyVal.str ver), ("version_note", PyVal.str vnt),
         ("version_owner", PyVal.str vow), ("version_owner_name", PyVal.str vwn),
         ("modified_date", PyVal.str mdd), ("created_date", PyVal.str crd),
         ("accessed_date", PyVal.str acd),
         ("checked_out", PyVal.bool false),
         ("checked_out_by", PyVal.none), ("checked_out_by_name", PyVal.none),
         ("owner_id", PyVal.str oid), ("owner_name", PyVal.str ownr),
         ("location", PyVal.str loc), ("doc_notes", PyVal.str dnt),
         ("profile_id", PyVal.str prf), ("profile_name", PyVal.str prn),
         ("indexes", PyVal.list
           [PyVal.dict [("index", PyVal.str ix1), ("index_value", PyVal.str iv1)]])]))
    ∧ (docsvault_get_file_details_by_location "x" "y" "z"
        (constHttp 200 (env "0" "m" (PyVal.dict [("FileDetail",
          fileDetailNode (PyVal.list [indexNode ix1 iv1])
            [("CheckedOut", PyVal.str cko), ("CheckedOutBy", PyVal.str ckb),
             ("CheckedOutByName", PyVal.str ckn)]
            fid pid fnm dsc flg fsz dty pgs ver vnt vow vwn mdd crd acd oid ownr loc dnt prf prn)]))) =
      Except.ok (PyVal.dict
        [("file_id", PyVal.str fid), ("parent_id", PyVal.str pid),
         ("file_name", PyVal.str fnm), ("description", PyVal.str dsc),
         ("flag_name", PyVal.str flg), ("file_size", PyVal.str fsz),
         ("doc_type", PyVal.str dty), ("pages", PyVal.str pgs),
         ("version", PyVal.str ver), ("version_note", PyVal.str vnt),
         ("version_owner", PyVal.str vow), ("version_owner_name", PyVal.str vwn),
         ("modified_date", PyVal.str mdd), ("created_date", PyVal.str crd),
         ("accessed_date", PyVal.str acd),
         ("checked_out", PyVal.str cko),
         ("checked_out_by", PyVal.str ckb), ("checked_out_by_name", PyVal.str ckn),
         ("owner_id", PyVal.str oid), ("owner_name", PyVal.str ownr),
         ("location", PyVal.str loc), ("doc_notes", PyVal.str dnt),
         ("profile_id", PyVal.str prf), ("profile_name", PyVal.str prn),
         ("list_of_indexes", PyVal.list
           [PyVal.dict [("Index", PyVal.str ix1), ("IndexValue", PyVal.str iv1)]])])) :=
  ⟨rfl, rfl, rfl⟩
